import Mathlib

/-!
# Verification of the jalusi-aws-handler orchestration scripts

Shallow embedding, in Lean 4, of the parts of the repository that the
frozen claims are about:

* `services/manage_project_version_control/replace_nginx_conf_file.py`
  (the IP-replacement stage of `NginxConfigReplacer.copy_nginx_config_file`);
* `services/docker_compose_manager/unified_docker_manager.py`
  (`find_instance_by_name`, `execute_ssh_command`, `docker_compose_logs`,
  and the `main` CLI dispatch);
* `services/resource_manager/unified_resource_manager.py`
  (`EC2InstanceManager.find_instances_by_filter` and the
  `InfrastructureManager` provisioning / teardown pipeline);
* `services/manage_project_version_control/update_project_directory.py`
  (`checkout_branch`, `pull_latest_changes`, `restart_docker_compose`,
  `update_project`).

External effects (AWS SDK calls, subprocesses, the filesystem) are
represented by explicit oracle parameters carrying the outcome the
environment would produce, or by an explicit world state for the AWS
resource model.  Strings are modelled by Lean `String`/`List Char` with
Python semantics (`str.replace` is plain left-to-right non-overlapping
substring replacement, `x in s` is substring containment, `or` returns
the first truthy operand).
-/

/- ## Python-style string helpers -/

/-- Python truthiness of an optional string: `None` and `""` are falsy. -/
def pyTruthyOptStr : Option String → Bool
  | none => false
  | some s => !s.isEmpty

/-- Whether `pat` is a prefix of `s` (on character lists). -/
def startsWithCL : List Char → List Char → Bool
  | [], _ => true
  | _ :: _, [] => false
  | p :: ps, c :: cs => p = c && startsWithCL ps cs

/-- Python `pat in s` on character lists: `pat` occurs as a contiguous
substring of `s` (the empty pattern is contained in every string). -/
def containsSubCL (pat : List Char) : List Char → Bool
  | [] => pat.isEmpty
  | c :: cs => startsWithCL pat (c :: cs) || containsSubCL pat cs

/-- Python `pat in s` on strings. -/
def pyContains (s pat : String) : Bool := containsSubCL pat.toList s.toList

/-- Python `str.lower()` (ASCII case folding suffices for the inputs here). -/
def pyLower (s : String) : String := String.mk (s.toList.map Char.toLower)

/-- Python `str.strip()` (whitespace trimming on both ends). -/
def pyStrip (s : String) : String :=
  String.mk (((s.toList.dropWhile Char.isWhitespace).reverse.dropWhile
    Char.isWhitespace).reverse)

/-- Python `int(s)` on a stripped decimal literal with optional sign:
`some n` on success, `none` when `int` would raise `ValueError`.
(Underscore digit separators, which never occur in `git rev-list --count`
output, are not modelled.) -/
def parsePyInt (s : String) : Option Int :=
  let t := (pyStrip s).toList
  let signAndDigits : Int × List Char :=
    match t with
    | '-' :: rest => (-1, rest)
    | '+' :: rest => (1, rest)
    | l => (1, l)
  let digits := signAndDigits.2
  if digits.isEmpty || !digits.all Char.isDigit then none
  else some (signAndDigits.1 * (digits.foldl (fun n c => n * 10 + (c.toNat - 48)) 0 : Nat))

/- ## Nginx config IP replacement
   (`NginxConfigReplacer.copy_nginx_config_file`,
   `replace_nginx_conf_file.py` lines 224-248: the stage that finds all
   IPv4-looking matches of `\b(?:\d\x7b1,3\x7d\.)\x7b3\x7d\d\x7b1,3\x7d\b`
   and replaces every non-excluded distinct match by the instance IP via
   `str.replace`.) -/

/-- A regex word character (`\w`): letter, digit or underscore. -/
def isWordChar (c : Char) : Bool := c.isAlphanum || c = '_'

/-- Maximal leading run of decimal digits, and the rest. -/
def takeDigitsCL : List Char → List Char × List Char
  | [] => ([], [])
  | c :: cs =>
    if c.isDigit then
      let r := takeDigitsCL cs
      (c :: r.1, r.2)
    else ([], c :: cs)

/-- Match one octet followed by a literal dot at the head of the input.
Because the octet pattern is a greedy digit run followed by `.`, a match
exists exactly when the maximal leading digit run has length 1..3 and is
immediately followed by `.` (taking fewer digits leaves a digit, not a
dot, as the next character, so all backtracks fail). -/
def matchOctetDot (s : List Char) : Option (List Char × List Char) :=
  let p := takeDigitsCL s
  if p.1.length = 0 || p.1.length > 3 then none
  else
    match p.2 with
    | '.' :: r2 => some (p.1 ++ ['.'], r2)
    | _ => none

/-- Match the final octet followed by a word boundary: the maximal leading
digit run must have length 1..3 and the next character (if any) must not
be a word character (backtracking to fewer digits always faces a digit,
a word character, so cannot create a boundary). -/
def matchFinalOctet (s : List Char) : Option (List Char × List Char) :=
  let p := takeDigitsCL s
  if p.1.length = 0 || p.1.length > 3 then none
  else
    match p.2 with
    | [] => some (p.1, [])
    | c :: _ => if isWordChar c then none else some (p.1, p.2)

/-- Match the Python regex `\b(?:\d\x7b1,3\x7d\.)\x7b3\x7d\d\x7b1,3\x7d\b`
at the head of `s`, where `prevIsWord` says whether the character just
before `s` is a word character (the pattern starts with a digit, so the
leading `\b` holds exactly when the previous character is absent or not
a word character).  Returns the matched text and the rest. -/
def matchIpAt (prevIsWord : Bool) (s : List Char) : Option (List Char × List Char) :=
  if prevIsWord then none
  else do
    let m1 ← matchOctetDot s
    let m2 ← matchOctetDot m1.2
    let m3 ← matchOctetDot m2.2
    let m4 ← matchFinalOctet m3.2
    some (m1.1 ++ m2.1 ++ m3.1 ++ m4.1, m4.2)

/-- Left-to-right non-overlapping scan, as `re.findall` performs: try a
match at each position; on success record it and resume after it.  The
fuel is an upper bound on the number of scan steps; each step consumes
at least one character, so `fuel = length of the input` is exact. -/
def scanIpsFuel : Nat → Bool → List Char → List (List Char)
  | 0, _, _ => []
  | _ + 1, _, [] => []
  | fuel + 1, pw, c :: cs =>
    match matchIpAt pw (c :: cs) with
    | some m => m.1 :: scanIpsFuel fuel true m.2
    | none => scanIpsFuel fuel (isWordChar c) cs

/-- Models `re.findall(ip_pattern, content)`: all IPv4-looking matches, in order. -/
def findIpMatches (content : List Char) : List (List Char) :=
  scanIpsFuel content.length false content

/-- One step of Python `str.replace(old, new)`: left-to-right,
non-overlapping, replacing every occurrence.  Fuel bounds the scan steps
(each consumes at least one character when `old` is non-empty, as every
`old` here is; `fuel = length of the input` is exact). -/
def replaceFuel : Nat → List Char → List Char → List Char → List Char
  | 0, s, _, _ => s
  | _ + 1, [], _, _ => []
  | fuel + 1, c :: cs, old, new =>
    if !old.isEmpty && startsWithCL old (c :: cs) then
      new ++ replaceFuel fuel ((c :: cs).drop old.length) old new
    else
      c :: replaceFuel fuel cs old new

/-- Python `s.replace(old, new)` on character lists. -/
def pyReplace (s old new : List Char) : List Char := replaceFuel s.length s old new

/-- Models `list(set(found_ips))`, modelled as first-occurrence deduplication
(CPython's set iteration order is unspecified; every property proved
below is independent of the chosen order). -/
def pyUniqueAux (seen : List (List Char)) : List (List Char) → List (List Char)
  | [] => []
  | x :: xs =>
    if seen.contains x then pyUniqueAux seen xs
    else x :: pyUniqueAux (x :: seen) xs

/-- First-occurrence deduplication of the match list. -/
def pyUnique (l : List (List Char)) : List (List Char) := pyUniqueAux [] l

/-- The exclusion list `['127.0.0.1', '0.0.0.0', 'localhost']` from the
source (note `localhost` can never be produced by the numeric pattern). -/
def nginxExcludedAddrs : List (List Char) :=
  ["127.0.0.1".toList, "0.0.0.0".toList, "localhost".toList]

/-- The replacement guard of the loop body:
`old_ip not in ['127.0.0.1', '0.0.0.0', 'localhost'] and old_ip != ip_address`. -/
def nginxReplPred (ip old_ip : List Char) : Bool :=
  !(nginxExcludedAddrs.contains old_ip) && old_ip ≠ ip

/-- The IP-replacement stage of `copy_nginx_config_file`: find all
IPv4-looking matches, deduplicate, and for each one not in the exclusion
list and different from the instance IP, replace every occurrence by the
instance IP with `str.replace`, counting the replacements.  (The later
Docker-service-name / upstream rewriting and the `http` wrapping never
rewrite an existing IPv4 occurrence and are outside this claim.) -/
def copy_nginx_config_ip_replace (content ip : List Char) : List Char × Nat :=
  let unique_ips := pyUnique (findIpMatches content)
  unique_ips.foldl
    (fun acc old_ip =>
      if nginxReplPred ip old_ip then (pyReplace acc.1 old_ip ip, acc.2 + 1)
      else acc)
    (content, 0)

/- ## SSH command executor
   (`UnifiedDockerManager.execute_ssh_command`, `unified_docker_manager.py`
   lines 187-236, and `UnifiedDockerManager.find_instance_by_name`,
   lines 111-151.) -/

/-- The instance record built by `find_instance_by_name` (a dict with
keys `id`, `name`, `state`, `public_ip`, `private_ip` and, when an
Elastic IP is associated, `elastic_ip`). -/
structure SshInstanceInfo where
  id : String
  name : String
  state : String
  public_ip : Option String
  private_ip : Option String
  elastic_ip : Option String
deriving DecidableEq

/-- Models `instance_info.get('elastic_ip') or instance_info.get('public_ip')`:
Python `or` yields the first truthy operand (a missing key or an empty
string is falsy). -/
def sshIpAddress (info : SshInstanceInfo) : Option String :=
  if pyTruthyOptStr info.elastic_ip then info.elastic_ip else info.public_ip

/-- Outcome of a `subprocess.run` invocation: it completed with a return
code and captured output, timed out (`subprocess.TimeoutExpired`), or
raised some other exception. -/
inductive SubprocOutcome where
  | completed (returncode : Int) (stdout stderr : String)
  | timedOut
  | raised (msg : String)
deriving DecidableEq

/-- What `execute_ssh_command` actually returns: a bare boolean (the
early-exit paths `return False`) or a `(success, stdout, stderr)`
tri-tuple. -/
inductive SshCallResult where
  | boolRet (b : Bool)
  | triple (ok : Bool) (stdout stderr : String)
deriving DecidableEq

/-- Whether a result value is a `(success, stdout, stderr)` tri-tuple. -/
def SshCallResult.isTriple : SshCallResult → Bool
  | .boolRet _ => false
  | .triple _ _ _ => true

/-- Models `UnifiedDockerManager.execute_ssh_command`.  The subprocess outcome
is an oracle parameter; `timeout` only feeds a printed message. -/
def execute_ssh_command (instance_info : Option SshInstanceInfo)
    (key_path : Option String) (command : String) (run : SubprocOutcome)
    (timeout : Nat) : SshCallResult :=
  -- `if not instance_info or not key_path: return False`
  if instance_info.isNone || !pyTruthyOptStr key_path then .boolRet false
  else
    match instance_info with
    | none => .boolRet false
    | some info =>
      -- `ip_address = ... ; if not ip_address: return False`
      if !pyTruthyOptStr (sshIpAddress info) then .boolRet false
      else
        let _ := command
        let _ := timeout
        match run with
        | .completed rc stdout stderr =>
          if rc = 0 then .triple true stdout stderr else .triple false stdout stderr
        | .timedOut => .triple false "" "Command timed out"
        | .raised msg => .triple false "" msg

/- ## Instance locators
   (`UnifiedDockerManager.find_instance_by_name` and
   `EC2InstanceManager.find_instances_by_filter`,
   `unified_resource_manager.py` lines 199-247.) -/

/-- An instance dict as returned inside `describe_instances` reservations
(the `Tags` key may be absent). -/
structure Ec2ApiInstance where
  instanceId : String
  state : String
  publicIp : Option String
  privateIp : Option String
  tags : Option (List (String × String))
deriving DecidableEq

/-- Models `UnifiedDockerManager.find_instance_by_name`.  `reservations` is the
`Reservations` list of the name-filtered, running-state-filtered
`describe_instances` response (each entry is that reservation's
`Instances` list); `addressesResult` is the outcome of the
`describe_addresses` call (`none` when it raised, in which case the
warning path leaves `elastic_ip` unset), given as pairs
`(InstanceId, PublicIp)`.  Returns the built record (or `none` on the
not-found path) together with the printed messages; the `.error` case is
the `IndexError` Python would raise on a reservation with an empty
`Instances` list (which `describe_instances` never produces). -/
def find_instance_by_name (instance_name : String)
    (reservations : List (List Ec2ApiInstance))
    (addressesResult : Option (List (Option String × String))) :
    Except String (Option SshInstanceInfo × List String) :=
  match reservations with
  | [] =>
    .ok (none, ["❌ No running EC2 instance found with name: " ++ instance_name])
  | firstRes :: _ =>
    match firstRes with
    | [] => .error "IndexError: list index out of range"
    | inst :: _ =>
      let elastic : Option String :=
        match addressesResult with
        | none => none
        | some addresses =>
          (addresses.find? (fun a => a.1 = some inst.instanceId)).map (·.2)
      let info : SshInstanceInfo :=
        { id := inst.instanceId, name := instance_name, state := inst.state,
          public_ip := inst.publicIp, private_ip := inst.privateIp,
          elastic_ip := elastic }
      .ok (some info, ["✅ Found instance: " ++ inst.instanceId ++ " (State: " ++ inst.state ++ ")"])

/-- The per-instance match test of `find_instances_by_filter`: some tag
has key `Name` whose value contains the pattern case-insensitively. -/
def tagNameMatches (filter_pattern : String) (inst : Ec2ApiInstance) : Bool :=
  match inst.tags with
  | none => false
  | some tags =>
    tags.any (fun t => t.1 = "Name" && pyContains (pyLower t.2) (pyLower filter_pattern))

/-- Models `EC2InstanceManager.find_instances_by_filter`: flatten the
reservations of the state-filtered `describe_instances` response, return
`[]` when there are no instances at all or none matches the pattern,
otherwise the matching instances. -/
def find_instances_by_filter (filter_pattern : String)
    (reservations : List (List Ec2ApiInstance)) : List Ec2ApiInstance :=
  let all_instances := reservations.foldl (fun acc r => acc ++ r) []
  if all_instances.isEmpty then []
  else
    let filtered := all_instances.filter (tagNameMatches filter_pattern)
    if filtered.isEmpty then [] else filtered

/- ## Docker Compose logs
   (`UnifiedDockerManager.docker_compose_logs`, `unified_docker_manager.py`
   lines 681-768.) -/

/-- Outcome of the streaming `subprocess.run` in follow mode: it finished
normally, was interrupted by `KeyboardInterrupt`, or raised another
exception. -/
inductive StreamOutcome where
  | finished
  | keyboardInterrupt
  | raised (msg : String)
deriving DecidableEq

/-- The per-method compose-path default, the line
`compose_path = docker_compose_file_path if docker_compose_file_path
else f"/home/ec2-user/projects/.../"` shared by `docker_compose_up`,
`docker_compose_down`, `docker_compose_restart`, `docker_compose_logs`
and `docker_compose_status` (an empty string is falsy and also selects
the default). -/
def composePathOf (docker_compose_file_path : Option String)
    (project_name : String) : String :=
  if pyTruthyOptStr docker_compose_file_path then docker_compose_file_path.getD ""
  else "/home/ec2-user/projects/" ++ project_name

/-- Models `UnifiedDockerManager.docker_compose_logs`.  `find_result` and
`key_result` are the outcomes of `find_instance_by_name` and
`check_ssh_key_exists`; `checkRun`, `findRun` and `nonFollowRun` the
subprocess outcomes of the compose-file check, the subdirectory-search
suggestion and the non-follow log retrieval; `streamRun` the outcome of
the streaming `subprocess.run`.  The `.error` case is the `TypeError`
Python raises when unpacking a bare-`False` `execute_ssh_command` result
into a tri-tuple. -/
def docker_compose_logs (find_result : Option SshInstanceInfo)
    (key_result : Option String) (project_name : String)
    (service : Option String) (follow : Bool) (tail : Nat)
    (docker_compose_file_path : Option String)
    (checkRun findRun nonFollowRun : SubprocOutcome)
    (streamRun : StreamOutcome) : Except String Bool :=
  match find_result with
  | none => .ok false
  | some info =>
    if !pyTruthyOptStr key_result then .ok false
    else
      let compose_path := composePathOf docker_compose_file_path project_name
      let check_command := "test -f " ++ compose_path ++
        "/docker-compose.yml && echo \x27Found\x27 || test -f " ++ compose_path ++
        "/compose.yml && echo \x27Found (compose.yml)\x27 || echo \x27Not found\x27"
      match execute_ssh_command (some info) key_result check_command checkRun 300 with
      | .boolRet _ => .error "TypeError: cannot unpack non-iterable bool object"
      | .triple _ stdout_check _ =>
        if !stdout_check.isEmpty && pyContains stdout_check "Not found" then
          let find_command := "find " ++ compose_path ++
            " -name \x27docker-compose.yml\x27 -o -name \x27compose.yml\x27 2>/dev/null | head -5"
          match execute_ssh_command (some info) key_result find_command findRun 300 with
          | .boolRet _ => .error "TypeError: cannot unpack non-iterable bool object"
          | .triple _ _ _ => .ok false
        else
          let command :=
            if follow then
              "cd " ++ compose_path ++ " && docker-compose logs -f --tail=" ++ toString tail
            else
              "cd " ++ compose_path ++ " && docker-compose logs --tail=" ++ toString tail
          let command :=
            match service with
            | some s => if s.isEmpty then command else command ++ " " ++ s
            | none => command
          if follow then
            if !pyTruthyOptStr (sshIpAddress info) then .ok false
            else
              match streamRun with
              | .finished => .ok true
              | .keyboardInterrupt => .ok true
              | .raised _ => .ok false
          else
            match execute_ssh_command (some info) key_result command nonFollowRun 300 with
            | .boolRet _ => .error "TypeError: cannot unpack non-iterable bool object"
            | .triple ok _ _ => .ok ok

/- ## Docker manager CLI dispatch
   (`main` of `unified_docker_manager.py`, lines 1093-1146.) -/

/-- A call to one of the manager's methods as issued by `main`, recording
the `docker_compose_file_path` argument it was given where there is one. -/
inductive ManagerCall where
  | buildEnv (instance_name : String)
  | installBuildx (instance_name : String)
  | restartDocker (instance_name : String)
  | composeUp (instance_name project : String) (build : Bool)
      (service : Option String) (dcPath : Option String)
  | composeDown (instance_name project : String)
      (service : Option String) (dcPath : Option String)
  | composeRestart (instance_name project : String)
      (service : Option String) (dcPath : Option String)
  | composeLogs (instance_name project : String) (service : Option String)
      (follow : Bool) (tail : Nat) (dcPath : Option String)
  | composeStatus (instance_name project : String) (dcPath : Option String)
  | cleanup (instance_name : String) (aggressive : Bool)
  | showInfo (instance_name : String)
  | diskUsage (instance_name : String)
deriving DecidableEq

/-- The parsed argparse namespace of the Docker manager CLI. -/
structure DockerCliArgs where
  action : String
  instance_name : String
  project_name : Option String
  docker_compose_file_path : Option String
  build : Bool
  follow : Bool
  aggressive : Bool
  tail : Nat
  service : Option String
deriving DecidableEq

/-- How an invocation of `main` ends: the explicit `return` of the
project-name validation, normal completion having issued the listed
method calls, or an exception caught by the top-level
`except Exception as e` handler (which prints `❌ Error: ...`). -/
inductive MainOutcome where
  | earlyReturn (msg : String)
  | completed (calls : List ManagerCall)
  | caughtError (msg : String)
deriving DecidableEq

/-- The `docker_compose_file_paths` list built by `main`: split the flag
on commas when it is truthy, else the empty list. -/
def dockerComposeFilePathsOf (flag : Option String) : List String :=
  match flag with
  | some s => if s.isEmpty then [] else s.splitOn ","
  | none => []

/-- The action dispatch of `main` (after AWS connection succeeds).  For
`up`/`down`/`restart`/`logs`/`status` with at most one entry in
`docker_compose_file_paths`, `main` evaluates
`docker_compose_file_paths[0]`, which raises `IndexError` on the empty
list; the top-level handler catches it.  Method bodies themselves are
not entered here, only the calls `main` issues are recorded. -/
def dockerMainDispatch (args : DockerCliArgs) : MainOutcome :=
  let actions_requiring_project := ["up", "down", "restart", "logs", "status"]
  if actions_requiring_project.contains args.action
      && !pyTruthyOptStr args.project_name then
    .earlyReturn ("❌ --project_name is required for action: " ++ args.action)
  else
    let paths := dockerComposeFilePathsOf args.docker_compose_file_path
    let project := args.project_name.getD ""
    if args.action = "build-env" then .completed [.buildEnv args.instance_name]
    else if args.action = "install-buildx" then .completed [.installBuildx args.instance_name]
    else if args.action = "restart-docker" then .completed [.restartDocker args.instance_name]
    else if args.action = "up" then
      if paths.length > 1 then
        .completed (paths.map (fun p =>
          .composeUp args.instance_name project args.build args.service (some p)))
      else
        match paths with
        | [] => .caughtError "❌ Error: list index out of range"
        | p :: _ =>
          .completed [.composeUp args.instance_name project args.build args.service (some p)]
    else if args.action = "down" then
      if paths.length > 1 then
        .completed (paths.map (fun p =>
          .composeDown args.instance_name project args.service (some p)))
      else
        match paths with
        | [] => .caughtError "❌ Error: list index out of range"
        | p :: _ =>
          .completed [.composeDown args.instance_name project args.service (some p)]
    else if args.action = "restart" then
      if paths.length > 1 then
        .completed (paths.map (fun p =>
          .composeRestart args.instance_name project args.service (some p)))
      else
        match paths with
        | [] => .caughtError "❌ Error: list index out of range"
        | p :: _ =>
          .completed [.composeRestart args.instance_name project args.service (some p)]
    else if args.action = "logs" then
      if paths.length > 1 then
        .completed (paths.map (fun p =>
          .composeLogs args.instance_name project args.service args.follow args.tail (some p)))
      else
        match paths with
        | [] => .caughtError "❌ Error: list index out of range"
        | p :: _ =>
          .completed [.composeLogs args.instance_name project args.service args.follow args.tail (some p)]
    else if args.action = "status" then
      if paths.length > 1 then
        .completed (paths.map (fun p =>
          .composeStatus args.instance_name project (some p)))
      else
        match paths with
        | [] => .caughtError "❌ Error: list index out of range"
        | p :: _ =>
          .completed [.composeStatus args.instance_name project (some p)]
    else if args.action = "cleanup" then .completed [.cleanup args.instance_name args.aggressive]
    else if args.action = "info" then .completed [.showInfo args.instance_name]
    else if args.action = "disk-usage" then .completed [.diskUsage args.instance_name]
    else .completed []

/- ## Project update driver
   (`ProjectDirectoryUpdater`, `update_project_directory.py`: each remote
   git / docker-compose command goes through `run_ssh_command`, which
   returns a `(success, output)` pair; those pairs are the oracle
   parameters below.) -/

/-- Models `ProjectDirectoryUpdater.checkout_branch`: fetch (result only
warned about), then check out the requested branch when
`git ls-remote` reports it exists, else fall back to `master`;
returns the branch actually checked out, or `none` on failure. -/
def checkout_branch (branch_name : Option String)
    (fetchRes checkBranchRes checkoutRes checkMasterRes checkoutMasterRes :
      Bool × String) : Option String :=
  let _ := fetchRes
  let tryMaster : Option String :=
    if checkMasterRes.1 && pyContains checkMasterRes.2 "exists" then
      if checkoutMasterRes.1 then some "master" else none
    else none
  match branch_name with
  | some b =>
    if b.isEmpty then tryMaster
    else if checkBranchRes.1 && pyContains checkBranchRes.2 "exists" then
      if checkoutRes.1 then some b else none
    else tryMaster
  | none => tryMaster

/-- Models `ProjectDirectoryUpdater.pull_latest_changes`: returns the
`(success, has_updates)` pair.  `has_updates` is set exactly when the
`git rev-list HEAD..origin/branch --count` command succeeded and its
stripped output parsed as an integer greater than zero; the final
`git pull` decides `success`. -/
def pull_latest_changes (branchRes fetchRes countRes pullRes : Bool × String) :
    Bool × Bool :=
  let _ := branchRes
  if !fetchRes.1 then (false, false)
  else
    let has_updates :=
      if countRes.1 then
        match parsePyInt countRes.2 with
        | some count => decide (count > 0)
        | none => false
      else false
    if pullRes.1 then (true, has_updates) else (false, false)

/-- Models `ProjectDirectoryUpdater.restart_docker_compose`: compose `down`
then `up -d`; fails fast when `down` fails. -/
def restart_docker_compose (downRes upRes : Bool × String) : Bool :=
  if !downRes.1 then false else upRes.1

/-- Models `ProjectDirectoryUpdater.update_project`: check the project
directory, check out a branch, pull, and restart compose services only
when updates were pulled.  Returns the function's boolean result
together with whether `restart_docker_compose` was invoked (its own
result is ignored by the source). -/
def update_project (dirExists : Bool) (branch_name : Option String)
    (coFetchRes coCheckBranchRes coCheckoutRes coCheckMasterRes coCheckoutMasterRes :
      Bool × String)
    (plBranchRes plFetchRes plCountRes plPullRes : Bool × String)
    (downRes upRes : Bool × String) : Bool × Bool :=
  if !dirExists then (false, false)
  else
    match checkout_branch branch_name coFetchRes coCheckBranchRes coCheckoutRes
        coCheckMasterRes coCheckoutMasterRes with
    | none => (false, false)
    | some _actual_branch =>
      let plResult := pull_latest_changes plBranchRes plFetchRes plCountRes plPullRes
      if !plResult.1 then (false, false)
      else if plResult.2 then
        let _ := restart_docker_compose downRes upRes
        (true, true)
      else (true, false)

/- ## AWS resource world and the infrastructure provisioner
   (`InfrastructureManager`, `unified_resource_manager.py` lines 780-1960.)
   The world records which resources currently exist, keyed by the name
   (or `Name` tag) the scripts use for everything.  API primitives fail
   with `alreadyExists` exactly where the corresponding AWS call would
   (duplicate key pair / bucket / security group / policy / role /
   instance profile); `run_instances`, `create_volume` and
   `allocate_address` never fail on a duplicate `Name` tag, because AWS
   tags are not unique. -/

structure AwsWorld where
  keyPairs : List String
  buckets : List String
  securityGroups : List String
  iamPolicies : List String
  iamRoles : List String
  roleAttachedPolicies : List (String × String)
  instanceProfiles : List String
  profileRoles : List (String × String)
  instances : List String
  volumes : List String
  volumeAttachments : List (String × String)
  elasticIps : List String
  hasDefaultVpc : Bool
  amiAvailable : Bool
deriving DecidableEq

/-- Errors surfaced by the modelled AWS calls. -/
inductive ApiErr where
  | alreadyExists (what : String)
  | noDefaultVpc
  | noAmi
deriving DecidableEq

/-- Per-step report: whether the step reused an existing resource and
whether it issued a create call. -/
structure StepReport where
  reused : Bool
  createdCall : Bool
deriving DecidableEq

/-- Models `ec2.create_key_pair`: duplicate names are rejected by AWS. -/
def api_create_key_pair (w : AwsWorld) (name : String) : Except ApiErr AwsWorld :=
  if w.keyPairs.contains name then .error (.alreadyExists "InvalidKeyPair.Duplicate")
  else .ok { w with keyPairs := name :: w.keyPairs }

/-- Models `InfrastructureManager.create_key_pair` (lines 832-884): the
`describe_key_pairs` probe finds an existing pair and reuses it;
otherwise the pair is created (and saved locally). -/
def create_key_pair (w : AwsWorld) (name : String) :
    Except ApiErr (AwsWorld × StepReport) :=
  if w.keyPairs.contains name then .ok (w, ⟨true, false⟩)
  else (api_create_key_pair w name).map (fun w2 => (w2, ⟨false, true⟩))

/-- Models `s3.create_bucket`: an existing bucket of the same name is rejected. -/
def api_create_bucket (w : AwsWorld) (name : String) : Except ApiErr AwsWorld :=
  if w.buckets.contains name then .error (.alreadyExists "BucketAlreadyOwnedByYou")
  else .ok { w with buckets := name :: w.buckets }

/-- Models `InfrastructureManager.create_s3_bucket` (lines 886-921): the
`head_bucket` probe finds an existing bucket and reuses it. -/
def create_s3_bucket (w : AwsWorld) (name : String) :
    Except ApiErr (AwsWorld × StepReport) :=
  if w.buckets.contains name then .ok (w, ⟨true, false⟩)
  else (api_create_bucket w name).map (fun w2 => (w2, ⟨false, true⟩))

/-- Models `ec2.create_security_group`: duplicate group names in a VPC are
rejected. -/
def api_create_security_group (w : AwsWorld) (name : String) : Except ApiErr AwsWorld :=
  if w.securityGroups.contains name then .error (.alreadyExists "InvalidGroup.Duplicate")
  else .ok { w with securityGroups := name :: w.securityGroups }

/-- Models `InfrastructureManager.create_security_group` (lines 923-995): needs
the default VPC; the `describe_security_groups` probe finds an existing
group by name and reuses it; otherwise creates the group and its fixed
ingress rules. -/
def create_security_group (w : AwsWorld) (name : String) :
    Except ApiErr (AwsWorld × StepReport) :=
  if !w.hasDefaultVpc then .error .noDefaultVpc
  else if w.securityGroups.contains name then .ok (w, ⟨true, false⟩)
  else (api_create_security_group w name).map (fun w2 => (w2, ⟨false, true⟩))

/-- Models `iam.create_policy`: duplicate policy names are rejected. -/
def api_create_policy (w : AwsWorld) (name : String) : Except ApiErr AwsWorld :=
  if w.iamPolicies.contains name then .error (.alreadyExists "EntityAlreadyExists")
  else .ok { w with iamPolicies := name :: w.iamPolicies }

/-- Models `iam.create_role`: duplicate role names are rejected. -/
def api_create_role (w : AwsWorld) (name : String) : Except ApiErr AwsWorld :=
  if w.iamRoles.contains name then .error (.alreadyExists "EntityAlreadyExists")
  else .ok { w with iamRoles := name :: w.iamRoles }

/-- Models `iam.create_instance_profile`: duplicate profile names are rejected. -/
def api_create_instance_profile (w : AwsWorld) (name : String) : Except ApiErr AwsWorld :=
  if w.instanceProfiles.contains name then .error (.alreadyExists "EntityAlreadyExists")
  else .ok { w with instanceProfiles := name :: w.instanceProfiles }

/-- The policy block of `create_iam_role_and_policy`: the `get_policy`
probe reuses an existing policy, otherwise `create_policy` runs. -/
def iam_policy_step (w : AwsWorld) (name : String) :
    Except ApiErr (AwsWorld × StepReport) :=
  if w.iamPolicies.contains name then .ok (w, ⟨true, false⟩)
  else (api_create_policy w name).map (fun w2 => (w2, ⟨false, true⟩))

/-- The role block of `create_iam_role_and_policy`: the `get_role` probe
reuses an existing role, otherwise `create_role` runs. -/
def iam_role_step (w : AwsWorld) (name : String) :
    Except ApiErr (AwsWorld × StepReport) :=
  if w.iamRoles.contains name then .ok (w, ⟨true, false⟩)
  else (api_create_role w name).map (fun w2 => (w2, ⟨false, true⟩))

/-- The `attach_role_policy` block: the `EntityAlreadyExists` error is
tolerated, so attaching is effectively idempotent. -/
def iam_attach_role_policy (w : AwsWorld) (name : String) : AwsWorld :=
  if w.roleAttachedPolicies.contains (name, name) then w
  else { w with roleAttachedPolicies := (name, name) :: w.roleAttachedPolicies }

/-- The instance-profile block of `create_iam_role_and_policy`: the
`get_instance_profile` probe reuses an existing profile, otherwise
`create_instance_profile` runs. -/
def iam_instance_profile_step (w : AwsWorld) (name : String) :
    Except ApiErr (AwsWorld × StepReport) :=
  if w.instanceProfiles.contains name then .ok (w, ⟨true, false⟩)
  else (api_create_instance_profile w name).map (fun w2 => (w2, ⟨false, true⟩))

/-- The `add_role_to_instance_profile` block: the profile's role list is
probed first and the role added only when missing. -/
def iam_add_role_to_profile (w : AwsWorld) (name : String) : AwsWorld :=
  if w.profileRoles.contains (name, name) then w
  else { w with profileRoles := (name, name) :: w.profileRoles }

/-- Models `InfrastructureManager.create_iam_role_and_policy` (lines 997-1124):
`get_policy` / `get_role` / `get_instance_profile` probes reuse existing
entities; the policy-to-role attachment tolerates `EntityAlreadyExists`
and the role-to-profile attachment is probed before adding.  Returns the
reports for the policy, role and instance-profile steps. -/
def create_iam_role_and_policy (w : AwsWorld) (name : String) :
    Except ApiErr (AwsWorld × StepReport × StepReport × StepReport) := do
  let policyStep ← iam_policy_step w name
  let roleStep ← iam_role_step policyStep.1 name
  let w3 := iam_attach_role_policy roleStep.1 name
  let profileStep ← iam_instance_profile_step w3 name
  let w5 := iam_add_role_to_profile profileStep.1 name
  .ok (w5, policyStep.2, roleStep.2, profileStep.2)

/-- Models `InfrastructureManager.create_ec2_instance` (lines 1141-1260):
resolves the latest AMI (failing when none is available) and then calls
`run_instances` unconditionally — there is no probe for an existing
instance with the same `Name` tag, and AWS happily creates another
instance carrying the same tag. -/
def create_ec2_instance (w : AwsWorld) (name : String) :
    Except ApiErr (AwsWorld × StepReport) :=
  if !w.amiAvailable then .error .noAmi
  else .ok ({ w with instances := name :: w.instances }, ⟨false, true⟩)

/-- Models `InfrastructureManager.create_or_reuse_ebs_volume` (lines 1262-1313):
the `describe_volumes` probe (by `Name` tag, states available / in-use)
reuses an existing volume; otherwise `create_volume` creates a tagged
one (never an already-exists error, tags are not unique). -/
def create_or_reuse_ebs_volume (w : AwsWorld) (name : String) :
    Except ApiErr (AwsWorld × StepReport) :=
  if w.volumes.contains name then .ok (w, ⟨true, false⟩)
  else .ok ({ w with volumes := name :: w.volumes }, ⟨false, true⟩)

/-- Models `InfrastructureManager.attach_ebs_volume` (lines 1315-1400): already
attached to the target instance is a no-op; attached elsewhere is
detached first; then the volume is attached to the target. -/
def attach_ebs_volume (w : AwsWorld) (volumeName instName : String) :
    Except ApiErr AwsWorld :=
  match w.volumeAttachments.find? (fun a => a.1 = volumeName) with
  | some att =>
    if att.2 = instName then .ok w
    else .ok { w with volumeAttachments :=
      (volumeName, instName) :: w.volumeAttachments.filter (fun a => !(a.1 = volumeName)) }
  | none => .ok { w with volumeAttachments := (volumeName, instName) :: w.volumeAttachments }

/-- Models `InfrastructureManager.allocate_elastic_ip` (lines 1402-1431): calls
`allocate_address` unconditionally and tags the new address — there is
no probe for an existing Elastic IP with the same `Name` tag. -/
def allocate_elastic_ip (w : AwsWorld) (name : String) :
    Except ApiErr (AwsWorld × StepReport) :=
  .ok ({ w with elasticIps := name :: w.elasticIps }, ⟨false, true⟩)

/-- Models `InfrastructureManager.associate_elastic_ip` (lines 1433-1459):
associates the freshly allocated address with the instance (association
state is irrelevant to every claim and not tracked in the world). -/
def associate_elastic_ip (w : AwsWorld) : Except ApiErr AwsWorld := .ok w

/-- The regex probe `re.search(r'^(.+)-(\d+)$', name)`: splits a name
into a non-empty base and a trailing decimal sequence number when the
name ends in `-<digits>`. -/
def splitSeqSuffix (name : String) : Option (String × Nat) :=
  let rev := name.toList.reverse
  let digits := rev.takeWhile Char.isDigit
  let rest := rev.dropWhile Char.isDigit
  match rest with
  | '-' :: base =>
    if digits.isEmpty || base.isEmpty then none
    else some (String.mk base.reverse,
      (digits.reverse).foldl (fun n c => n * 10 + (c.toNat - 48)) 0)
  | _ => none

/-- Models `InfrastructureManager.find_next_instance_name` (lines 783-830):
strip an existing suffix to get the base, collect the sequence numbers
of all instances tagged `base-<digits>`, and return `base-(max+1)`
(`base-1` when none exist). -/
def find_next_instance_name (w : AwsWorld) (base_instance_name : String) : String :=
  let base :=
    match splitSeqSuffix base_instance_name with
    | some p => p.1
    | none => base_instance_name
  let existing_sequences := w.instances.filterMap (fun tag =>
    match splitSeqSuffix tag with
    | some p => if p.1 = base then some p.2 else none
    | none => none)
  let next_sequence := existing_sequences.foldl max 0 + 1
  base ++ "-" ++ toString next_sequence

/-- The reuse/create reports of one `create_infrastructure` run. -/
structure InfraReport where
  keyPair : StepReport
  s3Bucket : StepReport
  securityGroup : StepReport
  iamPolicy : StepReport
  iamRole : StepReport
  iamInstanceProfile : StepReport
  ec2Instance : StepReport
  ebsVolume : StepReport
  elasticIp : Option StepReport
deriving DecidableEq

/-- Models `InfrastructureManager.create_infrastructure` (lines 1855-1960):
resolve the name (suffixed names are used as-is, otherwise the next free
suffix is computed), then run the provisioning sequence; any step error
aborts the whole run.  Returns the final world, the resolved name and
the step reports. -/
def create_infrastructure (w : AwsWorld) (instance_name : String)
    (attach_static_ip : Bool) :
    Except ApiErr (AwsWorld × String × InfraReport) := do
  let name :=
    match splitSeqSuffix instance_name with
    | some _ => instance_name
    | none => find_next_instance_name w instance_name
  let kp ← create_key_pair w name
  let s3 ← create_s3_bucket kp.1 name
  let sg ← create_security_group s3.1 name
  let iam ← create_iam_role_and_policy sg.1 name
  let inst ← create_ec2_instance iam.1 name
  let vol ← create_or_reuse_ebs_volume inst.1 name
  let w7 ← attach_ebs_volume vol.1 name name
  if attach_static_ip then
    let eip ← allocate_elastic_ip w7 name
    let w9 ← associate_elastic_ip eip.1
    .ok (w9, name,
      ⟨kp.2, s3.2, sg.2, iam.2.1, iam.2.2.1, iam.2.2.2, inst.2, vol.2, some eip.2⟩)
  else
    .ok (w7, name,
      ⟨kp.2, s3.2, sg.2, iam.2.1, iam.2.2.1, iam.2.2.2, inst.2, vol.2, none⟩)

/-- A world with no resources at all (default VPC and an AMI present). -/
def emptyAwsWorld : AwsWorld :=
  { keyPairs := [], buckets := [], securityGroups := [], iamPolicies := [],
    iamRoles := [], roleAttachedPolicies := [], instanceProfiles := [],
    profileRoles := [], instances := [], volumes := [], volumeAttachments := [],
    elasticIps := [], hasDefaultVpc := true, amiAvailable := true }

/-- A world already holding an instance and an Elastic IP tagged
`jalusi-db-1`. -/
def wEipInstanceExist : AwsWorld :=
  { emptyAwsWorld with instances := ["jalusi-db-1"], elasticIps := ["jalusi-db-1"] }

/-- A world already holding the seven named resources the provisioning
probes look for, all under `jalusi-db-1`. -/
def wAllSevenExist : AwsWorld :=
  { emptyAwsWorld with
    keyPairs := ["jalusi-db-1"], buckets := ["jalusi-db-1"],
    securityGroups := ["jalusi-db-1"], iamPolicies := ["jalusi-db-1"],
    iamRoles := ["jalusi-db-1"],
    roleAttachedPolicies := [("jalusi-db-1", "jalusi-db-1")],
    instanceProfiles := ["jalusi-db-1"],
    profileRoles := [("jalusi-db-1", "jalusi-db-1")],
    volumes := ["jalusi-db-1"] }

/- ## Infrastructure destroyer
   (`InfrastructureManager.destroy_infrastructure`,
   `unified_resource_manager.py` lines 1519-1711.)  The lookup result of
   `list_resources_by_instance_name` decides which teardown steps run;
   every step sits in its own `try/except` that logs and continues, so a
   step's failure never changes which later steps are attempted.  Each
   step's success is driven by a failure oracle. -/

/-- The lookup result of `list_resources_by_instance_name` (each field
carries the found resource's id / name, `none` when absent). -/
structure DestroyResources where
  ec2Instance : Option String
  volume : Option String
  s3Bucket : Option String
  keyPair : Option String
  securityGroup : Option String
  iamRole : Option String
  iamPolicy : Option String
  iamInstanceProfile : Option String
deriving DecidableEq

/-- The teardown step kinds of `destroy_infrastructure`, in source
order. -/
inductive DStep where
  | terminateInstance
  | releaseElasticIp
  | deleteVolume
  | deleteS3Bucket
  | deleteKeyPair
  | deleteSecurityGroup
  | deleteInstanceProfile
  | deleteRole
  | deletePolicy
deriving DecidableEq

/-- Position of each step kind in the teardown sequence. -/
def rankD : DStep → Nat
  | .terminateInstance => 0
  | .releaseElasticIp => 1
  | .deleteVolume => 2
  | .deleteS3Bucket => 3
  | .deleteKeyPair => 4
  | .deleteSecurityGroup => 5
  | .deleteInstanceProfile => 6
  | .deleteRole => 7
  | .deletePolicy => 8

/-- The additional-instance pass: the guarded ternary
`if instance['InstanceId'] != resources['instance']['id'] if
resources['instance'] else None` collects other instance ids only when
the primary instance was found, and skips the primary id itself. -/
def additional_instances (r : DestroyResources) (candidates : List String) :
    List String :=
  match r.ec2Instance with
  | some iid => candidates.filter (fun c => !(c = iid))
  | none => []

/-- One guarded teardown step: attempted exactly when its resource was
found, and paired with the success its `try/except` observes. -/
def runDStep (present : Bool) (s : DStep) (fails : DStep → Bool) :
    List (DStep × Bool) :=
  if present then [(s, !fails s)] else []

/-- Models `InfrastructureManager.destroy_infrastructure` as the sequence of
attempted teardown steps, each with its observed success.  `r` is the
resource lookup result, `candidates` the instance ids returned by the
additional-instance `describe_instances` pass, `eip` the result of
`find_elastic_ip_by_instance_name`, and `fails` the failure oracle for
the individual AWS calls.  Every step is wrapped in its own
`try/except` in the source, so the sequence of attempts is built
unconditionally from the lookup result. -/
def destroy_infrastructure_run (r : DestroyResources) (candidates : List String)
    (eip : Option String) (fails : DStep → Bool) : List (DStep × Bool) :=
  runDStep r.ec2Instance.isSome .terminateInstance fails
  ++ ((additional_instances r candidates).map
        (fun _ => (DStep.terminateInstance, !fails .terminateInstance))
  ++ (runDStep eip.isSome .releaseElasticIp fails
  ++ (runDStep r.volume.isSome .deleteVolume fails
  ++ (runDStep r.s3Bucket.isSome .deleteS3Bucket fails
  ++ (runDStep r.keyPair.isSome .deleteKeyPair fails
  ++ (runDStep r.securityGroup.isSome .deleteSecurityGroup fails
  ++ (runDStep r.iamInstanceProfile.isSome .deleteInstanceProfile fails
  ++ (runDStep r.iamRole.isSome .deleteRole fails
  ++ runDStep r.iamPolicy.isSome .deletePolicy fails))))))))

/-- The attempted steps of a teardown run, in order. -/
def destroy_attempts (r : DestroyResources) (candidates : List String)
    (eip : Option String) (fails : DStep → Bool) : List DStep :=
  (destroy_infrastructure_run r candidates eip fails).map Prod.fst

/-- A lookup result where every resource of `jalusi-db-1` was found. -/
def rAllFound : DestroyResources :=
  { ec2Instance := some "i-0abc123", volume := some "vol-0abc123",
    s3Bucket := some "jalusi-db-1", keyPair := some "jalusi-db-1",
    securityGroup := some "sg-0abc123", iamRole := some "jalusi-db-1",
    iamPolicy := some "jalusi-db-1", iamInstanceProfile := some "jalusi-db-1" }

/-- The world produced by a first `create_infrastructure` run on
`emptyAwsWorld` with name `jalusi-db-1` and no static IP. -/
def wAfterFirstRun : AwsWorld :=
  { keyPairs := ["jalusi-db-1"], buckets := ["jalusi-db-1"],
    securityGroups := ["jalusi-db-1"], iamPolicies := ["jalusi-db-1"],
    iamRoles := ["jalusi-db-1"],
    roleAttachedPolicies := [("jalusi-db-1", "jalusi-db-1")],
    instanceProfiles := ["jalusi-db-1"],
    profileRoles := [("jalusi-db-1", "jalusi-db-1")],
    instances := ["jalusi-db-1"], volumes := ["jalusi-db-1"],
    volumeAttachments := [("jalusi-db-1", "jalusi-db-1")], elasticIps := [],
    hasDefaultVpc := true, amiAvailable := true }

/-- The step reports of that first run: every step created. -/
def firstRunReport : InfraReport :=
  { keyPair := ⟨false, true⟩, s3Bucket := ⟨false, true⟩,
    securityGroup := ⟨false, true⟩, iamPolicy := ⟨false, true⟩,
    iamRole := ⟨false, true⟩, iamInstanceProfile := ⟨false, true⟩,
    ec2Instance := ⟨false, true⟩, ebsVolume := ⟨false, true⟩,
    elasticIp := none }

/-- A found instance record with a usable public IP. -/
def demoInstanceInfo : SshInstanceInfo :=
  { id := "i-0abc123", name := "jalusi-db-1", state := "running",
    public_ip := some "13.244.10.20", private_ip := some "172.31.0.5",
    elastic_ip := none }

/-- A found instance record with no usable IP address (the Elastic-IP
field holds the falsy empty string and the public IP is absent). -/
def demoNoIpInstanceInfo : SshInstanceInfo :=
  { id := "i-0abc124", name := "jalusi-db-2", state := "running",
    public_ip := none, private_ip := some "172.31.0.6",
    elastic_ip := some "" }

/-- A parsed CLI namespace: action `logs` with a project name but
without `--docker_compose_file_path`. -/
def demoCliArgs : DockerCliArgs :=
  { action := "logs", instance_name := "jalusi-db-1",
    project_name := some "learnly-project", docker_compose_file_path := none,
    build := false, follow := true, aggressive := false, tail := 100,
    service := none }

/- ## Helper lemmas -/

/-- Splitting a successful `Except` bind into its two successful stages. -/
theorem except_bind_ok {ε α β : Type} {x : Except ε α} {f : α → Except ε β} {b : β} :
    (x >>= f) = .ok b ↔ ∃ a, x = .ok a ∧ f a = .ok b := by
  cases x <;> simp [Bind.bind, Except.bind]

/-- The counting fold of the replacement loop equals a filter: the
accumulator applies `pyReplace` once per retained element and the
counter advances by the number of retained elements. -/
theorem foldl_replace_filter (ip : List Char) (l : List (List Char))
    (s : List Char) (k : Nat) :
    l.foldl
      (fun acc old_ip =>
        if nginxReplPred ip old_ip then (pyReplace acc.1 old_ip ip, acc.2 + 1)
        else acc) (s, k)
    = ((l.filter (nginxReplPred ip)).foldl (fun acc o => pyReplace acc o ip) s,
        k + (l.filter (nginxReplPred ip)).length) := by
  induction l generalizing s k with
  | nil => simp
  | cons x xs ih =>
    simp only [List.foldl_cons, List.filter_cons]
    by_cases h : nginxReplPred ip x = true
    · simp only [h, if_true, ite_true, List.foldl_cons, ih, List.length_cons]
      exact Prod.ext rfl (by omega)
    · simp [h, ih]

/-- Dropping the success component of a guarded teardown step. -/
theorem map_fst_runDStep (p : Bool) (s : DStep) (f : DStep → Bool) :
    (runDStep p s f).map Prod.fst = if p then [s] else [] := by
  unfold runDStep; split <;> simp

/-- An element of a one-step conditional chunk is that step. -/
theorem mem_ite_single {a s : DStep} {p : Bool}
    (h : a ∈ (if p then [s] else ([] : List DStep))) : a = s := by
  by_cases hp : p = true
  · simp [hp] at h; exact h
  · simp [hp] at h

/-- A one-step conditional chunk is rank-sorted. -/
theorem pairwise_rank_single (p : Bool) (s : DStep) :
    List.Pairwise (fun a b => rankD a ≤ rankD b) (if p then [s] else []) := by
  split <;> simp

/-- Gluing rank-sorted chunks around a pivot rank. -/
theorem pairwise_rank_append {l₁ l₂ : List DStep} (k : Nat)
    (h₁ : List.Pairwise (fun a b => rankD a ≤ rankD b) l₁)
    (h₂ : List.Pairwise (fun a b => rankD a ≤ rankD b) l₂)
    (ha : ∀ a ∈ l₁, rankD a ≤ k) (hb : ∀ b ∈ l₂, k ≤ rankD b) :
    List.Pairwise (fun a b => rankD a ≤ rankD b) (l₁ ++ l₂) :=
  List.pairwise_append.mpr ⟨h₁, h₂, fun a haa b hbb => le_trans (ha a haa) (hb b hbb)⟩

/-- A constant chunk is rank-sorted. -/
theorem pairwise_rank_const {α : Type} (l : List α) (s : DStep) :
    List.Pairwise (fun a b => rankD a ≤ rankD b) (l.map fun _ => s) := by
  induction l with
  | nil => simp
  | cons x xs ih =>
    simp only [List.map_cons, List.pairwise_cons]
    refine ⟨fun b hb => ?_, ih⟩
    rw [List.mem_map] at hb
    obtain ⟨c, _, hc⟩ := hb
    rw [← hc]

/-- Normal form of the attempted teardown steps: the ten guarded chunks
in source order, independent of the failure oracle. -/
theorem destroy_attempts_eq (r : DestroyResources) (cand : List String)
    (eip : Option String) (fails : DStep → Bool) :
    destroy_attempts r cand eip fails =
      (if r.ec2Instance.isSome then [DStep.terminateInstance] else [])
      ++ ((additional_instances r cand).map (fun _ => DStep.terminateInstance)
      ++ ((if eip.isSome then [DStep.releaseElasticIp] else [])
      ++ ((if r.volume.isSome then [DStep.deleteVolume] else [])
      ++ ((if r.s3Bucket.isSome then [DStep.deleteS3Bucket] else [])
      ++ ((if r.keyPair.isSome then [DStep.deleteKeyPair] else [])
      ++ ((if r.securityGroup.isSome then [DStep.deleteSecurityGroup] else [])
      ++ ((if r.iamInstanceProfile.isSome then [DStep.deleteInstanceProfile] else [])
      ++ ((if r.iamRole.isSome then [DStep.deleteRole] else [])
      ++ (if r.iamPolicy.isSome then [DStep.deletePolicy] else []))))))))) := by
  unfold destroy_attempts destroy_infrastructure_run
  simp [List.map_append, map_fst_runDStep, List.map_map, Function.comp]

theorem create_key_pair_ok {w : AwsWorld} {n : String} {p : AwsWorld × StepReport}
    (h : create_key_pair w n = .ok p) :
    p.1.keyPairs.contains n = true ∧ p.1.buckets = w.buckets
    ∧ p.1.securityGroups = w.securityGroups ∧ p.1.iamPolicies = w.iamPolicies
    ∧ p.1.iamRoles = w.iamRoles ∧ p.1.instanceProfiles = w.instanceProfiles
    ∧ p.1.volumes = w.volumes ∧ p.1.hasDefaultVpc = w.hasDefaultVpc
    ∧ p.1.amiAvailable = w.amiAvailable := by
  unfold create_key_pair api_create_key_pair at h
  by_cases hc : n ∈ w.keyPairs
  · simp [hc] at h
    simp [← h, hc]
  · simp [hc, Except.map] at h
    simp [← h]

theorem create_s3_bucket_ok {w : AwsWorld} {n : String} {p : AwsWorld × StepReport}
    (h : create_s3_bucket w n = .ok p) :
    p.1.buckets.contains n = true ∧ p.1.keyPairs = w.keyPairs
    ∧ p.1.securityGroups = w.securityGroups ∧ p.1.iamPolicies = w.iamPolicies
    ∧ p.1.iamRoles = w.iamRoles ∧ p.1.instanceProfiles = w.instanceProfiles
    ∧ p.1.volumes = w.volumes ∧ p.1.hasDefaultVpc = w.hasDefaultVpc
    ∧ p.1.amiAvailable = w.amiAvailable := by
  unfold create_s3_bucket api_create_bucket at h
  by_cases hc : n ∈ w.buckets
  · simp [hc] at h
    simp [← h, hc]
  · simp [hc, Except.map] at h
    simp [← h]

theorem create_security_group_ok {w : AwsWorld} {n : String} {p : AwsWorld × StepReport}
    (h : create_security_group w n = .ok p) :
    p.1.securityGroups.contains n = true ∧ p.1.keyPairs = w.keyPairs
    ∧ p.1.buckets = w.buckets ∧ p.1.iamPolicies = w.iamPolicies
    ∧ p.1.iamRoles = w.iamRoles ∧ p.1.instanceProfiles = w.instanceProfiles
    ∧ p.1.volumes = w.volumes ∧ p.1.hasDefaultVpc = w.hasDefaultVpc
    ∧ p.1.amiAvailable = w.amiAvailable := by
  unfold create_security_group api_create_security_group at h
  by_cases hv : w.hasDefaultVpc = true
  · by_cases hc : n ∈ w.securityGroups
    · simp [hv, hc] at h
      simp [← h, hc, hv]
    · simp [hv, hc, Except.map] at h
      simp [← h, hv]
  · simp [hv] at h

theorem iam_policy_step_ok {w : AwsWorld} {n : String} {p : AwsWorld × StepReport}
    (h : iam_policy_step w n = .ok p) :
    p.1.iamPolicies.contains n = true ∧ p.1.keyPairs = w.keyPairs
    ∧ p.1.buckets = w.buckets ∧ p.1.securityGroups = w.securityGroups
    ∧ p.1.iamRoles = w.iamRoles ∧ p.1.instanceProfiles = w.instanceProfiles
    ∧ p.1.volumes = w.volumes ∧ p.1.hasDefaultVpc = w.hasDefaultVpc
    ∧ p.1.amiAvailable = w.amiAvailable := by
  unfold iam_policy_step api_create_policy at h
  by_cases hc : n ∈ w.iamPolicies
  · simp [hc] at h
    simp [← h, hc]
  · simp [hc, Except.map] at h
    simp [← h]

theorem iam_role_step_ok {w : AwsWorld} {n : String} {p : AwsWorld × StepReport}
    (h : iam_role_step w n = .ok p) :
    p.1.iamRoles.contains n = true ∧ p.1.keyPairs = w.keyPairs
    ∧ p.1.buckets = w.buckets ∧ p.1.securityGroups = w.securityGroups
    ∧ p.1.iamPolicies = w.iamPolicies ∧ p.1.instanceProfiles = w.instanceProfiles
    ∧ p.1.volumes = w.volumes ∧ p.1.hasDefaultVpc = w.hasDefaultVpc
    ∧ p.1.amiAvailable = w.amiAvailable := by
  unfold iam_role_step api_create_role at h
  by_cases hc : n ∈ w.iamRoles
  · simp [hc] at h
    simp [← h, hc]
  · simp [hc, Except.map] at h
    simp [← h]

theorem iam_instance_profile_step_ok {w : AwsWorld} {n : String}
    {p : AwsWorld × StepReport} (h : iam_instance_profile_step w n = .ok p) :
    p.1.instanceProfiles.contains n = true ∧ p.1.keyPairs = w.keyPairs
    ∧ p.1.buckets = w.buckets ∧ p.1.securityGroups = w.securityGroups
    ∧ p.1.iamPolicies = w.iamPolicies ∧ p.1.iamRoles = w.iamRoles
    ∧ p.1.volumes = w.volumes ∧ p.1.hasDefaultVpc = w.hasDefaultVpc
    ∧ p.1.amiAvailable = w.amiAvailable := by
  unfold iam_instance_profile_step api_create_instance_profile at h
  by_cases hc : n ∈ w.instanceProfiles
  · simp [hc] at h
    simp [← h, hc]
  · simp [hc, Except.map] at h
    simp [← h]

theorem iam_attach_role_policy_fields (w : AwsWorld) (n : String) :
    (iam_attach_role_policy w n).keyPairs = w.keyPairs
    ∧ (iam_attach_role_policy w n).buckets = w.buckets
    ∧ (iam_attach_role_policy w n).securityGroups = w.securityGroups
    ∧ (iam_attach_role_policy w n).iamPolicies = w.iamPolicies
    ∧ (iam_attach_role_policy w n).iamRoles = w.iamRoles
    ∧ (iam_attach_role_policy w n).instanceProfiles = w.instanceProfiles
    ∧ (iam_attach_role_policy w n).volumes = w.volumes
    ∧ (iam_attach_role_policy w n).hasDefaultVpc = w.hasDefaultVpc
    ∧ (iam_attach_role_policy w n).amiAvailable = w.amiAvailable := by
  unfold iam_attach_role_policy
  split <;> simp

theorem iam_add_role_to_profile_fields (w : AwsWorld) (n : String) :
    (iam_add_role_to_profile w n).keyPairs = w.keyPairs
    ∧ (iam_add_role_to_profile w n).buckets = w.buckets
    ∧ (iam_add_role_to_profile w n).securityGroups = w.securityGroups
    ∧ (iam_add_role_to_profile w n).iamPolicies = w.iamPolicies
    ∧ (iam_add_role_to_profile w n).iamRoles = w.iamRoles
    ∧ (iam_add_role_to_profile w n).instanceProfiles = w.instanceProfiles
    ∧ (iam_add_role_to_profile w n).volumes = w.volumes
    ∧ (iam_add_role_to_profile w n).hasDefaultVpc = w.hasDefaultVpc
    ∧ (iam_add_role_to_profile w n).amiAvailable = w.amiAvailable := by
  unfold iam_add_role_to_profile
  split <;> simp

theorem create_iam_role_and_policy_ok {w : AwsWorld} {n : String}
    {q : AwsWorld × StepReport × StepReport × StepReport}
    (h : create_iam_role_and_policy w n = .ok q) :
    q.1.iamPolicies.contains n = true ∧ q.1.iamRoles.contains n = true
    ∧ q.1.instanceProfiles.contains n = true
    ∧ q.1.keyPairs = w.keyPairs ∧ q.1.buckets = w.buckets
    ∧ q.1.securityGroups = w.securityGroups ∧ q.1.volumes = w.volumes
    ∧ q.1.hasDefaultVpc = w.hasDefaultVpc ∧ q.1.amiAvailable = w.amiAvailable := by
  unfold create_iam_role_and_policy at h
  rcases except_bind_ok.mp h with ⟨ps, hps, h⟩
  rcases except_bind_ok.mp h with ⟨rs, hrs, h⟩
  rcases except_bind_ok.mp h with ⟨ips, hips, h⟩
  obtain ⟨hp1, hp2, hp3, hp4, hp5, hp6, hp7, hp8, hp9⟩ := iam_policy_step_ok hps
  obtain ⟨hr1, hr2, hr3, hr4, hr5, hr6, hr7, hr8, hr9⟩ := iam_role_step_ok hrs
  obtain ⟨ha1, ha2, ha3, ha4, ha5, ha6, ha7, ha8, ha9⟩ :=
    iam_attach_role_policy_fields rs.1 n
  obtain ⟨hi1, hi2, hi3, hi4, hi5, hi6, hi7, hi8, hi9⟩ :=
    iam_instance_profile_step_ok hips
  obtain ⟨hd1, hd2, hd3, hd4, hd5, hd6, hd7, hd8, hd9⟩ :=
    iam_add_role_to_profile_fields ips.1 n
  simp only [Except.ok.injEq] at h
  rw [← h]
  refine ⟨?_, ?_, ?_, ?_, ?_, ?_, ?_, ?_, ?_⟩
  · rw [hd4, hi5, ha4, hr5, hp1]
  · rw [hd5, hi6, ha5, hr1]
  · rw [hd6, hi1]
  · rw [hd1, hi2, ha1, hr2, hp2]
  · rw [hd2, hi3, ha2, hr3, hp3]
  · rw [hd3, hi4, ha3, hr4, hp4]
  · rw [hd7, hi7, ha7, hr7, hp7]
  · rw [hd8, hi8, ha8, hr8, hp8]
  · rw [hd9, hi9, ha9, hr9, hp9]

theorem create_ec2_instance_ok {w : AwsWorld} {n : String} {p : AwsWorld × StepReport}
    (h : create_ec2_instance w n = .ok p) :
    p.1.keyPairs = w.keyPairs ∧ p.1.buckets = w.buckets
    ∧ p.1.securityGroups = w.securityGroups ∧ p.1.iamPolicies = w.iamPolicies
    ∧ p.1.iamRoles = w.iamRoles ∧ p.1.instanceProfiles = w.instanceProfiles
    ∧ p.1.volumes = w.volumes ∧ p.1.hasDefaultVpc = w.hasDefaultVpc
    ∧ p.1.amiAvailable = w.amiAvailable := by
  unfold create_ec2_instance at h
  by_cases ha : w.amiAvailable = true
  · simp [ha] at h
    simp [← h, ha]
  · simp [ha] at h

theorem create_or_reuse_ebs_volume_ok {w : AwsWorld} {n : String}
    {p : AwsWorld × StepReport} (h : create_or_reuse_ebs_volume w n = .ok p) :
    p.1.volumes.contains n = true ∧ p.1.keyPairs = w.keyPairs
    ∧ p.1.buckets = w.buckets ∧ p.1.securityGroups = w.securityGroups
    ∧ p.1.iamPolicies = w.iamPolicies ∧ p.1.iamRoles = w.iamRoles
    ∧ p.1.instanceProfiles = w.instanceProfiles ∧ p.1.hasDefaultVpc = w.hasDefaultVpc
    ∧ p.1.amiAvailable = w.amiAvailable := by
  unfold create_or_reuse_ebs_volume at h
  by_cases hc : n ∈ w.volumes
  · simp [hc] at h
    simp [← h, hc]
  · simp [hc] at h
    simp [← h]

theorem attach_ebs_volume_ok {w : AwsWorld} {a b : String} {w2 : AwsWorld}
    (h : attach_ebs_volume w a b = .ok w2) :
    w2.keyPairs = w.keyPairs ∧ w2.buckets = w.buckets
    ∧ w2.securityGroups = w.securityGroups ∧ w2.iamPolicies = w.iamPolicies
    ∧ w2.iamRoles = w.iamRoles ∧ w2.instanceProfiles = w.instanceProfiles
    ∧ w2.volumes = w.volumes ∧ w2.hasDefaultVpc = w.hasDefaultVpc
    ∧ w2.amiAvailable = w.amiAvailable := by
  unfold attach_ebs_volume at h
  rcases hf : w.volumeAttachments.find? (fun x => x.1 = a) with _ | att
  · rw [hf] at h
    simp at h
    simp [← h]
  · rw [hf] at h
    simp at h
    by_cases he : att.2 = b
    · simp [he] at h
      simp [← h]
    · simp [he] at h
      simp [← h]

theorem allocate_elastic_ip_ok {w : AwsWorld} {n : String} {p : AwsWorld × StepReport}
    (h : allocate_elastic_ip w n = .ok p) :
    p.1.keyPairs = w.keyPairs ∧ p.1.buckets = w.buckets
    ∧ p.1.securityGroups = w.securityGroups ∧ p.1.iamPolicies = w.iamPolicies
    ∧ p.1.iamRoles = w.iamRoles ∧ p.1.instanceProfiles = w.instanceProfiles
    ∧ p.1.volumes = w.volumes ∧ p.1.hasDefaultVpc = w.hasDefaultVpc
    ∧ p.1.amiAvailable = w.amiAvailable := by
  unfold allocate_elastic_ip at h
  simp at h
  simp [← h]

theorem create_infrastructure_ok_state {w : AwsWorld} {name : String} {flag : Bool}
    {out : AwsWorld × String × InfraReport}
    (hs : (splitSeqSuffix name).isSome = true)
    (h : create_infrastructure w name flag = .ok out) :
    out.2.1 = name
    ∧ out.1.keyPairs.contains name = true
    ∧ out.1.buckets.contains name = true
    ∧ out.1.securityGroups.contains name = true
    ∧ out.1.iamPolicies.contains name = true
    ∧ out.1.iamRoles.contains name = true
    ∧ out.1.instanceProfiles.contains name = true
    ∧ out.1.volumes.contains name = true
    ∧ out.1.hasDefaultVpc = true
    ∧ out.1.amiAvailable = true := by
  unfold create_infrastructure at h
  rw [Option.isSome_iff_exists] at hs
  obtain ⟨pr, hpr⟩ := hs
  rw [hpr] at h
  simp only at h
  rcases except_bind_ok.mp h with ⟨kp, hkp, h⟩
  rcases except_bind_ok.mp h with ⟨s3, hs3, h⟩
  rcases except_bind_ok.mp h with ⟨sg, hsg, h⟩
  rcases except_bind_ok.mp h with ⟨iam, hiam, h⟩
  rcases except_bind_ok.mp h with ⟨inst, hinst, h⟩
  rcases except_bind_ok.mp h with ⟨vol, hvol, h⟩
  rcases except_bind_ok.mp h with ⟨w7, hw7, h⟩
  obtain ⟨k1, k2, k3, k4, k5, k6, k7, k8, k9⟩ := create_key_pair_ok hkp
  obtain ⟨b1, b2, b3, b4, b5, b6, b7, b8, b9⟩ := create_s3_bucket_ok hs3
  obtain ⟨g1, g2, g3, g4, g5, g6, g7, g8, g9⟩ := create_security_group_ok hsg
  obtain ⟨m1, m2, m3, m4, m5, m6, m7, m8, m9⟩ := create_iam_role_and_policy_ok hiam
  obtain ⟨e1, e2, e3, e4, e5, e6, e7, e8, e9⟩ := create_ec2_instance_ok hinst
  obtain ⟨v1, v2, v3, v4, v5, v6, v7, v8, v9⟩ := create_or_reuse_ebs_volume_ok hvol
  obtain ⟨t1, t2, t3, t4, t5, t6, t7, t8, t9⟩ := attach_ebs_volume_ok hw7
  -- the security-group step only succeeds when the default VPC is there
  have hvpc : sg.1.hasDefaultVpc = true := by
    unfold create_security_group at hsg
    by_cases hv : s3.1.hasDefaultVpc = true
    · rw [g8, hv]
    · simp [hv] at hsg
  -- the EC2 step only succeeds when an AMI is available
  have hami : inst.1.amiAvailable = true := by
    unfold create_ec2_instance at hinst
    by_cases hv : iam.1.amiAvailable = true
    · rw [e9, hv]
    · simp [hv] at hinst
  cases flag with
  | true =>
    simp only [ite_true] at h
    rcases except_bind_ok.mp h with ⟨eip, heip, h⟩
    rcases except_bind_ok.mp h with ⟨w9, hw9, h⟩
    obtain ⟨q1, q2, q3, q4, q5, q6, q7, q8, q9⟩ := allocate_elastic_ip_ok heip
    unfold associate_elastic_ip at hw9
    simp at hw9
    simp only [Except.ok.injEq] at h
    rw [← h]
    rw [← hw9]
    refine ⟨rfl, ?_, ?_, ?_, ?_, ?_, ?_, ?_, ?_, ?_⟩
    · rw [q1, t1, v2, e1, m4, g2, b2, k1]
    · rw [q2, t2, v3, e2, m5, g3, b1]
    · rw [q3, t3, v4, e3, m6, g1]
    · rw [q4, t4, v5, e4, m1]
    · rw [q5, t5, v6, e5, m2]
    · rw [q6, t6, v7, e6, m3]
    · rw [q7, t7, v1]
    · rw [q8, t8, v8, e8, m8, hvpc]
    · rw [q9, t9, v9, hami]
  | false =>
    simp only [Bool.false_eq_true, ite_false, Except.ok.injEq] at h
    rw [← h]
    refine ⟨rfl, ?_, ?_, ?_, ?_, ?_, ?_, ?_, ?_, ?_⟩
    · rw [t1, v2, e1, m4, g2, b2, k1]
    · rw [t2, v3, e2, m5, g3, b1]
    · rw [t3, v4, e3, m6, g1]
    · rw [t4, v5, e4, m1]
    · rw [t5, v6, e5, m2]
    · rw [t6, v7, e6, m3]
    · rw [t7, v1]
    · rw [t8, v8, e8, m8, hvpc]
    · rw [t9, v9, hami]

theorem attach_ebs_volume_always_ok (w : AwsWorld) (a b : String) :
    ∃ w2, attach_ebs_volume w a b = .ok w2 := by
  unfold attach_ebs_volume
  rcases h : w.volumeAttachments.find? (fun x => x.1 = a) with _ | att
  · rw [h]
    exact ⟨_, rfl⟩
  · rw [h]
    by_cases he : att.2 = b <;> simp [he]

theorem create_infrastructure_reuses (w : AwsWorld) (name : String) (flag : Bool)
    (h1 : w.keyPairs.contains name = true)
    (h2 : w.buckets.contains name = true)
    (h3 : w.securityGroups.contains name = true)
    (h4 : w.iamPolicies.contains name = true)
    (h5 : w.iamRoles.contains name = true)
    (h6 : w.instanceProfiles.contains name = true)
    (h7 : w.volumes.contains name = true)
    (hv : w.hasDefaultVpc = true)
    (ha : w.amiAvailable = true)
    (hs : (splitSeqSuffix name).isSome = true) :
    ∃ w2, create_infrastructure w name flag = .ok (w2, name,
      ⟨⟨true, false⟩, ⟨true, false⟩, ⟨true, false⟩, ⟨true, false⟩, ⟨true, false⟩,
        ⟨true, false⟩, ⟨false, true⟩, ⟨true, false⟩,
        if flag then some ⟨false, true⟩ else none⟩) := by
  obtain ⟨pr, hpr⟩ := Option.isSome_iff_exists.mp hs
  have m1 : name ∈ w.keyPairs := by simpa using h1
  have m2 : name ∈ w.buckets := by simpa using h2
  have m3 : name ∈ w.securityGroups := by simpa using h3
  have m4 : name ∈ w.iamPolicies := by simpa using h4
  have m5 : name ∈ w.iamRoles := by simpa using h5
  have m6 : name ∈ w.instanceProfiles := by simpa using h6
  have m7 : name ∈ w.volumes := by simpa using h7
  have e1 : create_key_pair w name = .ok (w, ⟨true, false⟩) := by
    unfold create_key_pair; simp [m1]
  have e2 : create_s3_bucket w name = .ok (w, ⟨true, false⟩) := by
    unfold create_s3_bucket; simp [m2]
  have e3 : create_security_group w name = .ok (w, ⟨true, false⟩) := by
    unfold create_security_group; simp [hv, m3]
  have ep : iam_policy_step w name = .ok (w, ⟨true, false⟩) := by
    unfold iam_policy_step; simp [m4]
  have er : iam_role_step w name = .ok (w, ⟨true, false⟩) := by
    unfold iam_role_step; simp [m5]
  have hw3 : name ∈ (iam_attach_role_policy w name).instanceProfiles := by
    rw [(iam_attach_role_policy_fields w name).2.2.2.2.2.1]; exact m6
  have ei : iam_instance_profile_step (iam_attach_role_policy w name) name
      = .ok (iam_attach_role_policy w name, ⟨true, false⟩) := by
    unfold iam_instance_profile_step; simp [hw3]
  have e4 : create_iam_role_and_policy w name
      = .ok (iam_add_role_to_profile (iam_attach_role_policy w name) name,
          ⟨true, false⟩, ⟨true, false⟩, ⟨true, false⟩) := by
    unfold create_iam_role_and_policy
    simp [ep, er, ei, Bind.bind, Except.bind]
  set W5 := iam_add_role_to_profile (iam_attach_role_policy w name) name with hW5
  have hW5ami : W5.amiAvailable = true := by
    rw [hW5, (iam_add_role_to_profile_fields (iam_attach_role_policy w name) name).2.2.2.2.2.2.2.2,
      (iam_attach_role_policy_fields w name).2.2.2.2.2.2.2.2]
    exact ha
  have e5 : create_ec2_instance W5 name
      = .ok ({ W5 with instances := name :: W5.instances }, ⟨false, true⟩) := by
    unfold create_ec2_instance; simp [hW5ami]
  have hW6vol : name ∈ ({ W5 with instances := name :: W5.instances } : AwsWorld).volumes := by
    show name ∈ W5.volumes
    rw [hW5, (iam_add_role_to_profile_fields (iam_attach_role_policy w name) name).2.2.2.2.2.2.1,
      (iam_attach_role_policy_fields w name).2.2.2.2.2.2.1]
    exact m7
  have e6 : create_or_reuse_ebs_volume ({ W5 with instances := name :: W5.instances }) name
      = .ok ({ W5 with instances := name :: W5.instances }, ⟨true, false⟩) := by
    unfold create_or_reuse_ebs_volume; simp [hW6vol]
  obtain ⟨W7, hW7⟩ :=
    attach_ebs_volume_always_ok ({ W5 with instances := name :: W5.instances }) name name
  unfold create_infrastructure
  rw [hpr]
  simp only [e1, e2, e3, e4, e5, e6, hW7, Bind.bind, Except.bind]
  cases flag with
  | true =>
    simp only [ite_true]
    exact ⟨_, rfl⟩
  | false =>
    simp only [Bool.false_eq_true, ite_false]
    exact ⟨_, rfl⟩

/-- Claim C3: invoking infrastructure creation twice with the same
suffixed instance name succeeds on the second invocation and reuses the
existing key pair, S3 bucket, security group, IAM policy, IAM role, IAM
instance profile and EBS volume found under that name (their step
reports say `reused`, and no already-exists error is raised); only the
EC2 instance (and the Elastic IP when requested) is created afresh. -/
theorem create_infrastructure_idempotent (w : AwsWorld) (name : String)
    (flag : Bool) (out : AwsWorld × String × InfraReport)
    (hs : (splitSeqSuffix name).isSome = true)
    (h : create_infrastructure w name flag = .ok out) :
    ∃ w2, create_infrastructure out.1 name flag = .ok (w2, name,
      ⟨⟨true, false⟩, ⟨true, false⟩, ⟨true, false⟩, ⟨true, false⟩, ⟨true, false⟩,
        ⟨true, false⟩, ⟨false, true⟩, ⟨true, false⟩,
        if flag then some ⟨false, true⟩ else none⟩) := by
  obtain ⟨_, c1, c2, c3, c4, c5, c6, c7, c8, c9⟩ := create_infrastructure_ok_state hs h
  exact create_infrastructure_reuses out.1 name flag c1 c2 c3 c4 c5 c6 c7 c8 c9 hs

/-- Claim C2, counterexample: in a world that already holds an Elastic
IP and an instance tagged `jalusi-db-1`, the Elastic-IP step and the
EC2-instance step still issue their create calls (report
`createdCall := true`, `reused := false`) without any prior lookup, so
not every provisioning step queries for an existing resource and reuses
it: the claim as stated is false. -/
theorem provisioning_unconditional_create_counterexample :
    wEipInstanceExist.elasticIps.contains "jalusi-db-1" = true
    ∧ allocate_elastic_ip wEipInstanceExist "jalusi-db-1"
        = .ok ({ wEipInstanceExist with
            elasticIps := "jalusi-db-1" :: wEipInstanceExist.elasticIps }, ⟨false, true⟩)
    ∧ wEipInstanceExist.instances.contains "jalusi-db-1" = true
    ∧ create_ec2_instance wEipInstanceExist "jalusi-db-1"
        = .ok ({ wEipInstanceExist with
            instances := "jalusi-db-1" :: wEipInstanceExist.instances }, ⟨false, true⟩) := by
  exact ⟨by decide, rfl, by decide, rfl⟩

/-- Claim C2 (amended): the check-before-create discipline holds for
the key pair, S3 bucket, security group, IAM policy / role / instance
profile and EBS volume steps — when a resource of the same name exists
the step reuses it and issues no create call — but the EC2-instance and
Elastic-IP steps create unconditionally (no probe; a create call on
every invocation). -/
theorem provisioning_check_before_create_amended (w : AwsWorld) (name : String) :
    (w.keyPairs.contains name = true →
      create_key_pair w name = .ok (w, ⟨true, false⟩))
    ∧ (w.buckets.contains name = true →
      create_s3_bucket w name = .ok (w, ⟨true, false⟩))
    ∧ (w.hasDefaultVpc = true → w.securityGroups.contains name = true →
      create_security_group w name = .ok (w, ⟨true, false⟩))
    ∧ (w.iamPolicies.contains name = true → w.iamRoles.contains name = true →
      w.instanceProfiles.contains name = true →
      ∃ w2, create_iam_role_and_policy w name
        = .ok (w2, ⟨true, false⟩, ⟨true, false⟩, ⟨true, false⟩))
    ∧ (w.volumes.contains name = true →
      create_or_reuse_ebs_volume w name = .ok (w, ⟨true, false⟩))
    ∧ (w.amiAvailable = true → create_ec2_instance w name
        = .ok ({ w with instances := name :: w.instances }, ⟨false, true⟩))
    ∧ allocate_elastic_ip w name
        = .ok ({ w with elasticIps := name :: w.elasticIps }, ⟨false, true⟩) := by
  refine ⟨?_, ?_, ?_, ?_, ?_, ?_, rfl⟩
  · intro h1
    have m1 : name ∈ w.keyPairs := by simpa using h1
    unfold create_key_pair; simp [m1]
  · intro h2
    have m2 : name ∈ w.buckets := by simpa using h2
    unfold create_s3_bucket; simp [m2]
  · intro hv h3
    have m3 : name ∈ w.securityGroups := by simpa using h3
    unfold create_security_group; simp [hv, m3]
  · intro h4 h5 h6
    have m4 : name ∈ w.iamPolicies := by simpa using h4
    have m5 : name ∈ w.iamRoles := by simpa using h5
    have m6 : name ∈ w.instanceProfiles := by simpa using h6
    have ep : iam_policy_step w name = .ok (w, ⟨true, false⟩) := by
      unfold iam_policy_step; simp [m4]
    have er : iam_role_step w name = .ok (w, ⟨true, false⟩) := by
      unfold iam_role_step; simp [m5]
    have hw3 : name ∈ (iam_attach_role_policy w name).instanceProfiles := by
      rw [(iam_attach_role_policy_fields w name).2.2.2.2.2.1]; exact m6
    have ei : iam_instance_profile_step (iam_attach_role_policy w name) name
        = .ok (iam_attach_role_policy w name, ⟨true, false⟩) := by
      unfold iam_instance_profile_step; simp [hw3]
    unfold create_iam_role_and_policy
    simp only [ep, er, ei, Bind.bind, Except.bind]
    exact ⟨_, rfl⟩
  · intro h7
    have m7 : name ∈ w.volumes := by simpa using h7
    unfold create_or_reuse_ebs_volume; simp [m7]
  · intro ha
    unfold create_ec2_instance; simp [ha]

/-- Claim C4, counterexample: on a template containing the distinct
IPv4-looking addresses `27.0.0.1` and `127.0.0.1`, replacing
`27.0.0.1` by the target IP `1.2.3.4` also rewrites the inside of the
occurrence of `127.0.0.1` (plain substring replacement), so the output
no longer contains `127.0.0.1`: the claim that every occurrence of
`127.0.0.1` is left unchanged is false. -/
theorem nginx_ip_replacement_counterexample :
    (copy_nginx_config_ip_replace
        "proxy_pass http://27.0.0.1:8080; allow 127.0.0.1;".toList
        "1.2.3.4".toList).1
      = "proxy_pass http://1.2.3.4:8080; allow 11.2.3.4;".toList
    ∧ pyContains "proxy_pass http://27.0.0.1:8080; allow 127.0.0.1;" "127.0.0.1" = true
    ∧ pyContains "proxy_pass http://1.2.3.4:8080; allow 11.2.3.4;" "127.0.0.1" = false := by
  exact ⟨by decide, by decide, by decide⟩

/-- Claim C4 (amended): the replacement loop rewrites exactly the
distinct IPv4-looking matches that are not `127.0.0.1`, `0.0.0.0`,
`localhost` or the target IP itself — `replaced_count` equals their
number and the output is the sequence of plain substring replacements of
those addresses by the target IP; `127.0.0.1` and `0.0.0.0` are never
selected for replacement, though (per the counterexample) an occurrence
of them can still be altered when a replaced address occurs inside it. -/
theorem nginx_ip_replacement_amended (content ip : List Char) :
    ((copy_nginx_config_ip_replace content ip).2
        = ((pyUnique (findIpMatches content)).filter (nginxReplPred ip)).length)
    ∧ ((copy_nginx_config_ip_replace content ip).1
        = ((pyUnique (findIpMatches content)).filter (nginxReplPred ip)).foldl
            (fun acc o => pyReplace acc o ip) content)
    ∧ "127.0.0.1".toList ∉ (pyUnique (findIpMatches content)).filter (nginxReplPred ip)
    ∧ "0.0.0.0".toList ∉ (pyUnique (findIpMatches content)).filter (nginxReplPred ip) := by
  have h := foldl_replace_filter ip (pyUnique (findIpMatches content)) content 0
  unfold copy_nginx_config_ip_replace
  refine ⟨by rw [h]; simp, by rw [h], ?_, ?_⟩
  · intro hmem
    have hp := (List.mem_filter.mp hmem).2
    simp only [nginxReplPred, Bool.and_eq_true, Bool.not_eq_true'] at hp
    exact absurd hp.1 (by decide)
  · intro hmem
    have hp := (List.mem_filter.mp hmem).2
    simp only [nginxReplPred, Bool.and_eq_true, Bool.not_eq_true'] at hp
    exact absurd hp.1 (by decide)

/-- Claim C5, counterexample: when the instance record is `None`, or
the record has no usable IP address, `execute_ssh_command` returns the
bare boolean `False`, not a `(success, stdout, stderr)` tri-tuple:
the claim that a tri-tuple is returned for every input is false. -/
theorem execute_ssh_command_counterexample :
    (execute_ssh_command none (some "pems/jalusi-db-1.pem") "docker ps"
        (.completed 0 "ok" "") 300) = .boolRet false
    ∧ (execute_ssh_command none (some "pems/jalusi-db-1.pem") "docker ps"
        (.completed 0 "ok" "") 300).isTriple = false
    ∧ (execute_ssh_command
        (some { id := "i-0abc", name := "jalusi-db-1", state := "running",
                public_ip := none, private_ip := some "10.0.0.5", elastic_ip := none })
        (some "pems/jalusi-db-1.pem") "docker ps" (.completed 0 "ok" "") 300).isTriple
        = false := by
  exact ⟨rfl, rfl, rfl⟩

/-- Claim C5 (amended): `execute_ssh_command` returns a
`(success, stdout, stderr)` tri-tuple for every subprocess outcome
whenever the instance record is present with a usable IP address and the
key path is truthy; when the record or key path is missing, or no usable
IP exists, it returns the bare boolean `False` instead. -/
theorem execute_ssh_command_result_shape (info info2 : SshInstanceInfo)
    (key key2 : Option String) (command : String) (run : SubprocOutcome) (timeout : Nat)
    (hk : pyTruthyOptStr key = true)
    (hip : pyTruthyOptStr (sshIpAddress info) = true)
    (hk2 : pyTruthyOptStr key2 = false)
    (hip2 : pyTruthyOptStr (sshIpAddress info2) = false) :
    (execute_ssh_command (some info) key command run timeout).isTriple = true
    ∧ execute_ssh_command none key command run timeout = .boolRet false
    ∧ execute_ssh_command (some info) key2 command run timeout = .boolRet false
    ∧ execute_ssh_command (some info2) key command run timeout = .boolRet false := by
  refine ⟨?_, ?_, ?_, ?_⟩
  · unfold execute_ssh_command
    simp [hk, hip]
    cases run with
    | completed rc o e => by_cases h : rc = 0 <;> simp [h, SshCallResult.isTriple]
    | timedOut => simp [SshCallResult.isTriple]
    | raised m => simp [SshCallResult.isTriple]
  · unfold execute_ssh_command; simp
  · unfold execute_ssh_command; simp [hk2]
  · unfold execute_ssh_command; simp [hk, hip2]

/-- Claim C9: in `docker_compose_logs` with follow mode enabled, when
the streaming subprocess is interrupted by `KeyboardInterrupt`, the
function catches the interrupt and returns `True` rather than
propagating the exception. -/
theorem docker_compose_logs_follow_interrupt (info : SshInstanceInfo)
    (key : Option String) (project_name : String) (service : Option String)
    (tail : Nat) (docker_compose_file_path : Option String)
    (checkRun findRun nonFollowRun : SubprocOutcome)
    (hk : pyTruthyOptStr key = true)
    (hip : pyTruthyOptStr (sshIpAddress info) = true)
    (hcheck : ∀ rc so se, checkRun = .completed rc so se →
      pyContains so "Not found" = false) :
    docker_compose_logs (some info) key project_name service true tail
      docker_compose_file_path checkRun findRun nonFollowRun .keyboardInterrupt
      = .ok true := by
  unfold docker_compose_logs execute_ssh_command
  simp [hk, hip]
  cases checkRun with
  | completed rc so se =>
    have hso := hcheck rc so se rfl
    by_cases h : rc = 0 <;> simp [h, hso, hip]
  | timedOut =>
    simp [hip]
    intro h
    exact absurd h (by decide)
  | raised m =>
    simp [hip]
    intro h
    exact absurd h (by decide)

/-- Claim C10: for every Docker-manager CLI invocation of the actions
up / down / restart / logs / status with a project name but without
`--docker_compose_file_path`, `main` builds an empty
`docker_compose_file_paths` list, evaluates its `[0]` and dies with an
`IndexError` caught only by the top-level handler, reaching no manager
method; the per-method default compose path
`/home/ec2-user/projects/<project>` is computed only when a method is
called directly with `docker_compose_file_path = None`. -/
theorem docker_cli_index_error (args : DockerCliArgs)
    (ha : args.action = "up" ∨ args.action = "down" ∨ args.action = "restart"
      ∨ args.action = "logs" ∨ args.action = "status")
    (hp : pyTruthyOptStr args.project_name = true)
    (hd : args.docker_compose_file_path = none) :
    dockerMainDispatch args = .caughtError "❌ Error: list index out of range"
    ∧ ∀ project_name, composePathOf none project_name
        = "/home/ec2-user/projects/" ++ project_name := by
  constructor
  · unfold dockerMainDispatch dockerComposeFilePathsOf
    rcases ha with h | h | h | h | h <;>
      simp [h, hp, hd]
  · intro p
    simp [composePathOf, pyTruthyOptStr]

/-- Claim C7: an instance-name lookup whose name-filtered
`describe_instances` response is empty returns `None` with a printed
message and raises nothing, and a pattern lookup matching no instance
returns the empty list. -/
theorem instance_locators_not_found (instance_name : String)
    (addressesResult : Option (List (Option String × String)))
    (filter_pattern : String) (reservations : List (List Ec2ApiInstance))
    (hnone : ∀ inst ∈ reservations.foldl (fun acc r => acc ++ r) [],
      tagNameMatches filter_pattern inst = false) :
    find_instance_by_name instance_name [] addressesResult
      = .ok (none, ["❌ No running EC2 instance found with name: " ++ instance_name])
    ∧ find_instances_by_filter filter_pattern reservations = [] := by
  constructor
  · rfl
  · unfold find_instances_by_filter
    by_cases h : (reservations.foldl (fun acc r => acc ++ r) []).isEmpty
    · simp [h]
    · simp only [h, Bool.false_eq_true, ite_false]
      have : (reservations.foldl (fun acc r => acc ++ r) []).filter
          (tagNameMatches filter_pattern) = [] :=
        List.filter_eq_nil_iff.mpr (fun a ha => by simp [hnone a ha])
      simp [this]

/-- Claim C8: in `update_project`, after a successful directory check,
checkout and pull, the Docker Compose restart is performed exactly when
the pre-pull `git rev-list HEAD..origin/<branch> --count` output parsed
as an integer greater than zero; otherwise the restart is skipped. -/
theorem update_project_restart_iff_new_commits (branch_name : Option String)
    (coFetchRes coCheckBranchRes coCheckoutRes coCheckMasterRes coCheckoutMasterRes :
      Bool × String)
    (plBranchRes plFetchRes plCountRes plPullRes downRes upRes : Bool × String)
    (n : Int) (b : String)
    (hco : checkout_branch branch_name coFetchRes coCheckBranchRes coCheckoutRes
      coCheckMasterRes coCheckoutMasterRes = some b)
    (hfetch : plFetchRes.1 = true)
    (hcount : plCountRes.1 = true)
    (hparse : parsePyInt plCountRes.2 = some n)
    (hpull : plPullRes.1 = true) :
    (update_project true branch_name coFetchRes coCheckBranchRes coCheckoutRes
        coCheckMasterRes coCheckoutMasterRes plBranchRes plFetchRes plCountRes
        plPullRes downRes upRes).1 = true
    ∧ ((update_project true branch_name coFetchRes coCheckBranchRes coCheckoutRes
        coCheckMasterRes coCheckoutMasterRes plBranchRes plFetchRes plCountRes
        plPullRes downRes upRes).2 = true ↔ 0 < n) := by
  unfold update_project pull_latest_changes
  simp [hco, hfetch, hcount, hparse, hpull]
  by_cases h : 0 < n
  · simp [h]
  · simp [h]

/-- Claim C1: for every resource-lookup result, the teardown attempts
of `destroy_infrastructure` are sorted by the canonical step order
terminate instance → release Elastic IP → delete volume → delete S3
bucket → delete key pair → delete security group → delete IAM instance
profile → delete IAM role → delete IAM policy; in particular an
instance-termination attempt always comes strictly before a volume
deletion or S3-bucket deletion attempt. -/
theorem destroy_teardown_order (r : DestroyResources) (cand : List String)
    (eip : Option String) (fails : DStep → Bool) :
    List.Pairwise (fun a b => rankD a ≤ rankD b) (destroy_attempts r cand eip fails)
    ∧ ∀ (i j : Fin (destroy_attempts r cand eip fails).length),
        (destroy_attempts r cand eip fails).get i = DStep.terminateInstance →
        ((destroy_attempts r cand eip fails).get j = DStep.deleteVolume
          ∨ (destroy_attempts r cand eip fails).get j = DStep.deleteS3Bucket) →
        (i : Nat) < (j : Nat) := by
  have hpw : List.Pairwise (fun a b => rankD a ≤ rankD b)
      (destroy_attempts r cand eip fails) := by
    rw [destroy_attempts_eq]
    have h8 : ∀ b ∈ (if r.iamPolicy.isSome then [DStep.deletePolicy] else []),
        8 ≤ rankD b := fun b hb => by rw [mem_ite_single hb]; decide
    have p89 := pairwise_rank_single r.iamPolicy.isSome DStep.deletePolicy
    have p78 := pairwise_rank_append 8
      (pairwise_rank_single r.iamRole.isSome DStep.deleteRole) p89
      (fun a ha => by rw [mem_ite_single ha]; decide) h8
    have h7 : ∀ b ∈ ((if r.iamRole.isSome then [DStep.deleteRole] else [])
        ++ (if r.iamPolicy.isSome then [DStep.deletePolicy] else [])),
        7 ≤ rankD b := by
      intro b hb
      rcases List.mem_append.mp hb with h | h
      · rw [mem_ite_single h]; decide
      · have := h8 b h; omega
    have p67 := pairwise_rank_append 7
      (pairwise_rank_single r.iamInstanceProfile.isSome DStep.deleteInstanceProfile) p78
      (fun a ha => by rw [mem_ite_single ha]; decide) h7
    have h6 : ∀ b ∈ ((if r.iamInstanceProfile.isSome then [DStep.deleteInstanceProfile] else [])
        ++ ((if r.iamRole.isSome then [DStep.deleteRole] else [])
        ++ (if r.iamPolicy.isSome then [DStep.deletePolicy] else []))),
        6 ≤ rankD b := by
      intro b hb
      rcases List.mem_append.mp hb with h | h
      · rw [mem_ite_single h]; decide
      · have := h7 b h; omega
    have p56 := pairwise_rank_append 6
      (pairwise_rank_single r.securityGroup.isSome DStep.deleteSecurityGroup) p67
      (fun a ha => by rw [mem_ite_single ha]; decide) h6
    have h5 : ∀ b ∈ ((if r.securityGroup.isSome then [DStep.deleteSecurityGroup] else [])
        ++ ((if r.iamInstanceProfile.isSome then [DStep.deleteInstanceProfile] else [])
        ++ ((if r.iamRole.isSome then [DStep.deleteRole] else [])
        ++ (if r.iamPolicy.isSome then [DStep.deletePolicy] else [])))),
        5 ≤ rankD b := by
      intro b hb
      rcases List.mem_append.mp hb with h | h
      · rw [mem_ite_single h]; decide
      · have := h6 b h; omega
    have p45 := pairwise_rank_append 5
      (pairwise_rank_single r.keyPair.isSome DStep.deleteKeyPair) p56
      (fun a ha => by rw [mem_ite_single ha]; decide) h5
    have h4 : ∀ b ∈ ((if r.keyPair.isSome then [DStep.deleteKeyPair] else [])
        ++ ((if r.securityGroup.isSome then [DStep.deleteSecurityGroup] else [])
        ++ ((if r.iamInstanceProfile.isSome then [DStep.deleteInstanceProfile] else [])
        ++ ((if r.iamRole.isSome then [DStep.deleteRole] else [])
        ++ (if r.iamPolicy.isSome then [DStep.deletePolicy] else []))))),
        4 ≤ rankD b := by
      intro b hb
      rcases List.mem_append.mp hb with h | h
      · rw [mem_ite_single h]; decide
      · have := h5 b h; omega
    have p34 := pairwise_rank_append 4
      (pairwise_rank_single r.s3Bucket.isSome DStep.deleteS3Bucket) p45
      (fun a ha => by rw [mem_ite_single ha]; decide) h4
    have h3 : ∀ b ∈ ((if r.s3Bucket.isSome then [DStep.deleteS3Bucket] else [])
        ++ ((if r.keyPair.isSome then [DStep.deleteKeyPair] else [])
        ++ ((if r.securityGroup.isSome then [DStep.deleteSecurityGroup] else [])
        ++ ((if r.iamInstanceProfile.isSome then [DStep.deleteInstanceProfile] else [])
        ++ ((if r.iamRole.isSome then [DStep.deleteRole] else [])
        ++ (if r.iamPolicy.isSome then [DStep.deletePolicy] else [])))))),
        3 ≤ rankD b := by
      intro b hb
      rcases List.mem_append.mp hb with h | h
      · rw [mem_ite_single h]; decide
      · have := h4 b h; omega
    have p23 := pairwise_rank_append 3
      (pairwise_rank_single r.volume.isSome DStep.deleteVolume) p34
      (fun a ha => by rw [mem_ite_single ha]; decide) h3
    have h2 : ∀ b ∈ ((if r.volume.isSome then [DStep.deleteVolume] else [])
        ++ ((if r.s3Bucket.isSome then [DStep.deleteS3Bucket] else [])
        ++ ((if r.keyPair.isSome then [DStep.deleteKeyPair] else [])
        ++ ((if r.securityGroup.isSome then [DStep.deleteSecurityGroup] else [])
        ++ ((if r.iamInstanceProfile.isSome then [DStep.deleteInstanceProfile] else [])
        ++ ((if r.iamRole.isSome then [DStep.deleteRole] else [])
        ++ (if r.iamPolicy.isSome then [DStep.deletePolicy] else []))))))),
        2 ≤ rankD b := by
      intro b hb
      rcases List.mem_append.mp hb with h | h
      · rw [mem_ite_single h]; decide
      · have := h3 b h; omega
    have p12 := pairwise_rank_append 2
      (pairwise_rank_single eip.isSome DStep.releaseElasticIp) p23
      (fun a ha => by rw [mem_ite_single ha]; decide) h2
    have h1 : ∀ b ∈ ((if eip.isSome then [DStep.releaseElasticIp] else [])
        ++ ((if r.volume.isSome then [DStep.deleteVolume] else [])
        ++ ((if r.s3Bucket.isSome then [DStep.deleteS3Bucket] else [])
        ++ ((if r.keyPair.isSome then [DStep.deleteKeyPair] else [])
        ++ ((if r.securityGroup.isSome then [DStep.deleteSecurityGroup] else [])
        ++ ((if r.iamInstanceProfile.isSome then [DStep.deleteInstanceProfile] else [])
        ++ ((if r.iamRole.isSome then [DStep.deleteRole] else [])
        ++ (if r.iamPolicy.isSome then [DStep.deletePolicy] else [])))))))),
        1 ≤ rankD b := by
      intro b hb
      rcases List.mem_append.mp hb with h | h
      · rw [mem_ite_single h]; decide
      · have := h2 b h; omega
    have p01 := pairwise_rank_append 1
      (pairwise_rank_const (additional_instances r cand) DStep.terminateInstance) p12
      (fun a ha => by
        rw [List.mem_map] at ha
        obtain ⟨c, _, hc⟩ := ha
        rw [← hc]
        decide) h1
    exact pairwise_rank_append 0
      (pairwise_rank_single r.ec2Instance.isSome DStep.terminateInstance) p01
      (fun a ha => by rw [mem_ite_single ha]; decide)
      (fun b _ => Nat.zero_le _)
  refine ⟨hpw, ?_⟩
  intro i j hi hj
  rcases lt_trichotomy (i : Nat) (j : Nat) with h | h | h
  · exact h
  · exfalso
    have hij : i = j := Fin.ext h
    rw [hij] at hi
    rw [hi] at hj
    rcases hj with hj | hj <;> exact DStep.noConfusion hj
  · exfalso
    have := (List.pairwise_iff_get.mp hpw) j i (by omega)
    rw [hi] at this
    rcases hj with hj | hj <;> rw [hj] at this <;> simp [rankD] at this

/-- Claim C6: the failure of any individual teardown step never changes
which steps `destroy_infrastructure` attempts — the attempted sequence
is identical under every failure oracle — and every step whose resource
was found is attempted (with its observed success recorded) regardless
of the other steps' failures. -/
theorem destroy_continues_after_step_failures (r : DestroyResources)
    (cand : List String) (eip : Option String) (fails fails2 : DStep → Bool) :
    destroy_attempts r cand eip fails = destroy_attempts r cand eip fails2
    ∧ (r.ec2Instance.isSome = true →
        (DStep.terminateInstance, !fails DStep.terminateInstance)
          ∈ destroy_infrastructure_run r cand eip fails)
    ∧ (eip.isSome = true →
        (DStep.releaseElasticIp, !fails DStep.releaseElasticIp)
          ∈ destroy_infrastructure_run r cand eip fails)
    ∧ (r.volume.isSome = true →
        (DStep.deleteVolume, !fails DStep.deleteVolume)
          ∈ destroy_infrastructure_run r cand eip fails)
    ∧ (r.s3Bucket.isSome = true →
        (DStep.deleteS3Bucket, !fails DStep.deleteS3Bucket)
          ∈ destroy_infrastructure_run r cand eip fails)
    ∧ (r.keyPair.isSome = true →
        (DStep.deleteKeyPair, !fails DStep.deleteKeyPair)
          ∈ destroy_infrastructure_run r cand eip fails)
    ∧ (r.securityGroup.isSome = true →
        (DStep.deleteSecurityGroup, !fails DStep.deleteSecurityGroup)
          ∈ destroy_infrastructure_run r cand eip fails)
    ∧ (r.iamInstanceProfile.isSome = true →
        (DStep.deleteInstanceProfile, !fails DStep.deleteInstanceProfile)
          ∈ destroy_infrastructure_run r cand eip fails)
    ∧ (r.iamRole.isSome = true →
        (DStep.deleteRole, !fails DStep.deleteRole)
          ∈ destroy_infrastructure_run r cand eip fails)
    ∧ (r.iamPolicy.isSome = true →
        (DStep.deletePolicy, !fails DStep.deletePolicy)
          ∈ destroy_infrastructure_run r cand eip fails) := by
  refine ⟨by rw [destroy_attempts_eq, destroy_attempts_eq], ?_, ?_, ?_, ?_, ?_, ?_, ?_, ?_, ?_⟩ <;>
    · intro h
      unfold destroy_infrastructure_run runDStep
      simp [h]

/- ## Witnesses -/

/-- Witness for C1 at a lookup where every resource was found: the
attempt sequence is rank-sorted and the terminate attempt (index 0)
precedes the volume-deletion attempt (index 2). -/
theorem destroy_teardown_order_witness :
    List.Pairwise (fun a b => rankD a ≤ rankD b)
      (destroy_attempts rAllFound [] (some "eipalloc-0abc") (fun _ => false))
    ∧ (0 : Nat) < 2 := by
  refine ⟨(destroy_teardown_order rAllFound [] (some "eipalloc-0abc") (fun _ => false)).1, ?_⟩
  exact (destroy_teardown_order rAllFound [] (some "eipalloc-0abc") (fun _ => false)).2
    ⟨0, by decide⟩ ⟨2, by decide⟩ (by decide) (Or.inl (by decide))

/-- Witness for C2 (amended) at a world holding all seven probed
resources under `jalusi-db-1`. -/
theorem provisioning_check_before_create_amended_witness :
    create_key_pair wAllSevenExist "jalusi-db-1" = .ok (wAllSevenExist, ⟨true, false⟩)
    ∧ create_s3_bucket wAllSevenExist "jalusi-db-1" = .ok (wAllSevenExist, ⟨true, false⟩)
    ∧ create_security_group wAllSevenExist "jalusi-db-1" = .ok (wAllSevenExist, ⟨true, false⟩)
    ∧ (∃ w2, create_iam_role_and_policy wAllSevenExist "jalusi-db-1"
        = .ok (w2, ⟨true, false⟩, ⟨true, false⟩, ⟨true, false⟩))
    ∧ create_or_reuse_ebs_volume wAllSevenExist "jalusi-db-1" = .ok (wAllSevenExist, ⟨true, false⟩)
    ∧ create_ec2_instance wAllSevenExist "jalusi-db-1"
        = .ok ({ wAllSevenExist with
            instances := "jalusi-db-1" :: wAllSevenExist.instances }, ⟨false, true⟩)
    ∧ allocate_elastic_ip wAllSevenExist "jalusi-db-1"
        = .ok ({ wAllSevenExist with
            elasticIps := "jalusi-db-1" :: wAllSevenExist.elasticIps }, ⟨false, true⟩) := by
  have h := provisioning_check_before_create_amended wAllSevenExist "jalusi-db-1"
  exact ⟨h.1 (by decide), h.2.1 (by decide), h.2.2.1 (by decide) (by decide),
    h.2.2.2.1 (by decide) (by decide) (by decide), h.2.2.2.2.1 (by decide),
    h.2.2.2.2.2.1 (by decide), h.2.2.2.2.2.2⟩

/-- Witness for C3: running creation a second time on the world the
first run left behind reuses all seven resources. -/
theorem create_infrastructure_idempotent_witness :
    ∃ w2, create_infrastructure wAfterFirstRun "jalusi-db-1" false
      = .ok (w2, "jalusi-db-1",
        ⟨⟨true, false⟩, ⟨true, false⟩, ⟨true, false⟩, ⟨true, false⟩, ⟨true, false⟩,
          ⟨true, false⟩, ⟨false, true⟩, ⟨true, false⟩,
          if false then some ⟨false, true⟩ else none⟩) :=
  create_infrastructure_idempotent emptyAwsWorld "jalusi-db-1" false
    (wAfterFirstRun, "jalusi-db-1", firstRunReport) (by decide) rfl

/-- Witness for C5 (amended) at concrete records and a successful
subprocess outcome. -/
theorem execute_ssh_command_result_shape_witness :
    (execute_ssh_command (some demoInstanceInfo) (some "pems/jalusi-db-1.pem")
        "docker ps" (.completed 0 "CONTAINER ID" "") 300).isTriple = true
    ∧ execute_ssh_command none (some "pems/jalusi-db-1.pem") "docker ps"
        (.completed 0 "CONTAINER ID" "") 300 = .boolRet false
    ∧ execute_ssh_command (some demoInstanceInfo) none "docker ps"
        (.completed 0 "CONTAINER ID" "") 300 = .boolRet false
    ∧ execute_ssh_command (some demoNoIpInstanceInfo) (some "pems/jalusi-db-1.pem")
        "docker ps" (.completed 0 "CONTAINER ID" "") 300 = .boolRet false :=
  execute_ssh_command_result_shape demoInstanceInfo demoNoIpInstanceInfo
    (some "pems/jalusi-db-1.pem") none "docker ps" (.completed 0 "CONTAINER ID" "") 300
    (by decide) (by decide) (by decide) (by decide)

/-- Witness for C6 at a lookup where every resource was found and a
failure oracle that fails every step: the attempts equal those of the
never-failing oracle, and the volume and policy deletions are still
attempted (observed as failed). -/
theorem destroy_continues_after_step_failures_witness :
    destroy_attempts rAllFound [] (some "eipalloc-0abc") (fun _ => true)
      = destroy_attempts rAllFound [] (some "eipalloc-0abc") (fun _ => false)
    ∧ (DStep.deleteVolume, false)
        ∈ destroy_infrastructure_run rAllFound [] (some "eipalloc-0abc") (fun _ => true)
    ∧ (DStep.deletePolicy, false)
        ∈ destroy_infrastructure_run rAllFound [] (some "eipalloc-0abc") (fun _ => true) := by
  have h := destroy_continues_after_step_failures rAllFound [] (some "eipalloc-0abc")
    (fun _ => true) (fun _ => false)
  exact ⟨h.1, h.2.2.2.1 (by decide), h.2.2.2.2.2.2.2.2.2 (by decide)⟩

/-- Witness for C7: an empty name-filtered response yields the not-found
result, and a pattern matching no tagged instance yields the empty list. -/
theorem instance_locators_not_found_witness :
    find_instance_by_name "jalusi-db-9" [] (some [])
      = .ok (none, ["❌ No running EC2 instance found with name: " ++ "jalusi-db-9"])
    ∧ find_instances_by_filter "jalusi"
        [[{ instanceId := "i-0abc123", state := "running", publicIp := none,
            privateIp := none, tags := some [("Name", "other-app-1")] }]] = [] :=
  instance_locators_not_found "jalusi-db-9" (some []) "jalusi"
    [[{ instanceId := "i-0abc123", state := "running", publicIp := none,
        privateIp := none, tags := some [("Name", "other-app-1")] }]] (by decide)

/-- Witness for C8: a pull with three new commits triggers the compose
restart. -/
theorem update_project_restart_iff_new_commits_witness :
    (update_project true (some "develop") (true, "") (true, "exists") (true, "")
        (true, "exists") (true, "") (true, "develop") (true, "") (true, "3")
        (true, "ok") (true, "") (true, "")).1 = true
    ∧ ((update_project true (some "develop") (true, "") (true, "exists") (true, "")
        (true, "exists") (true, "") (true, "develop") (true, "") (true, "3")
        (true, "ok") (true, "") (true, "")).2 = true ↔ (0 : Int) < 3) :=
  update_project_restart_iff_new_commits (some "develop") (true, "") (true, "exists")
    (true, "") (true, "exists") (true, "") (true, "develop") (true, "") (true, "3")
    (true, "ok") (true, "") (true, "") 3 "develop"
    (by decide) (by decide) (by decide) (by decide) (by decide)

/-- Witness for C9: streaming logs in follow mode, interrupted by
`KeyboardInterrupt`, returns success. -/
theorem docker_compose_logs_follow_interrupt_witness :
    docker_compose_logs (some demoInstanceInfo) (some "pems/jalusi-db-1.pem")
      "learnly-project" none true 100 none (.completed 0 "Found" "")
      (.completed 0 "" "") (.completed 0 "" "") .keyboardInterrupt = .ok true :=
  docker_compose_logs_follow_interrupt demoInstanceInfo (some "pems/jalusi-db-1.pem")
    "learnly-project" none 100 none (.completed 0 "Found" "") (.completed 0 "" "")
    (.completed 0 "" "") (by decide) (by decide)
    (fun rc so se h => by cases h; decide)

/-- Witness for C10: a `logs` invocation with a project name but no
compose-path flag ends in the caught `IndexError`, and the method-level
default path computes from `None`. -/
theorem docker_cli_index_error_witness :
    dockerMainDispatch demoCliArgs = .caughtError "❌ Error: list index out of range"
    ∧ composePathOf none "learnly-project" = "/home/ec2-user/projects/" ++ "learnly-project" := by
  have h := docker_cli_index_error demoCliArgs (by decide) (by decide) rfl
  exact ⟨h.1, h.2 "learnly-project"⟩
